import Mathlib

/-!
Shallow embedding of the validation/retry/status core of the `data_analysis`
repository, together with proofs about the embedded operations.

Source files embedded here:
* `src/data_analysis/system/utils/analysis_status.py` (stage status store,
  failure cascading),
* `src/data_analysis/system/utils/code_execution.py` (execution environment
  builder, code runner),
* `src/data_analysis/system/guardrails/queries_guardrail.py` and
  `src/data_analysis/system/guardrails/mono_agent_guardrail.py` (validation
  gates with per-sub-item code execution),
* `src/data_analysis/system/utils/queries_analyser.py` (result analyzer).

Modelling conventions: wall-clock timestamps (`datetime.now().isoformat()`)
are modelled as natural numbers supplied as an explicit argument to each
operation that stamps a time; the persisted JSON status file is modelled as a
finite map `String → Option StageRecord`; Python dictionaries whose entries
are only ever read through `.get` with a default are modelled as total
records, with an absent key represented by the corresponding default value.
-/

namespace DataAnalysis

/-- One stage's record in the persisted analysis status map:
`{"state": ..., "attempts": ..., "start_time": ..., "end_time": ...}`. -/
structure StageRecord where
  state : String
  attempts : Nat
  start_time : Option Nat
  end_time : Option Nat
deriving DecidableEq, Repr

/-- The persisted status map (`analysis_status.json` content), a dictionary
from agent name to its record. -/
def StatusMap : Type := String → Option StageRecord

/-- `data[agent_name] = r` on a Python dict. -/
def setStage (data : StatusMap) (name : String) (r : StageRecord) : StatusMap :=
  fun s => if s = name then some r else data s

/-- The record a missing agent reads as, through the `.get` defaults used in
`update_analysis_status` (`attempts` 0, `state` "waiting", times `None`). -/
def defaultStageRecord : StageRecord :=
  { state := "waiting", attempts := 0, start_time := none, end_time := none }

/-- The seven agent names of `DEFAULT_AGENTS_STATUS`, in declaration order
(also the full pipeline order used by `mark_following_agents_as_error`). -/
def FULL_PIPELINE : List String :=
  ["raw_schema", "schema_interpreter", "business_analyst", "query_builder",
   "query_analysis", "visualization_designer", "confidentiality_tester"]

/-- The two agent names of the mono pipeline. -/
def MONO_PIPELINE : List String := ["raw_schema", "mono_agent"]

/-- `DEFAULT_AGENTS_STATUS`: all seven stages waiting, attempts 0, null
timestamps. -/
def DEFAULT_AGENTS_STATUS : StatusMap :=
  fun s => if s ∈ FULL_PIPELINE then some defaultStageRecord else none

/-- `MONO_DEFAULT_AGENTS_STATUS`: the two mono-pipeline stages waiting. -/
def MONO_DEFAULT_AGENTS_STATUS : StatusMap :=
  fun s => if s ∈ MONO_PIPELINE then some defaultStageRecord else none

/-- `MAX_ATTEMPTS = 4`, the attempt cap declared in
`increment_agent_attempts` and in every guardrail. -/
def MAX_ATTEMPTS : Nat := 4

/-- `update_analysis_status(agent_name, state)` from `analysis_status.py`,
acting on an already-loaded status map, with the current time `t`.

The Python body reads the current record through `.get` defaults, then:
entering `in_progress` from a different state increments `attempts`, stamps
`start_time := now` and clears `end_time`; entering `in_progress` while
already `in_progress` with a null `start_time` stamps `start_time`; entering
`done` from a non-`done` state stamps `end_time`.  (`state` cannot equal both
`"in_progress"` and `"done"`, so the two sequential Python `if` blocks are
rendered as disjoint conditionals here.)  The agent's entry is then replaced
wholesale. -/
def update_analysis_status (t : Nat) (agent_name state : String)
    (data : StatusMap) : StatusMap :=
  let cur := (data agent_name).getD defaultStageRecord
  let attempts :=
    if state = "in_progress" ∧ cur.state ≠ "in_progress" then cur.attempts + 1
    else cur.attempts
  let start_time :=
    if state = "in_progress" ∧ cur.state ≠ "in_progress" then some t
    else if state = "in_progress" ∧ cur.start_time = none then some t
    else cur.start_time
  let end_time :=
    if state = "done" ∧ cur.state ≠ "done" then some t
    else if state = "in_progress" ∧ cur.state ≠ "in_progress" then none
    else cur.end_time
  setStage data agent_name
    { state := state, attempts := attempts,
      start_time := start_time, end_time := end_time }

/-- `increment_agent_attempts(agent_name)` from `analysis_status.py`: no-op
when the recorded attempts are already at `MAX_ATTEMPTS`, otherwise adds one.
A missing agent reads as `{"state": "in_progress", "attempts": 0}` (the
literal `.get` default in the source; its missing time keys read as null). -/
def increment_agent_attempts (agent_name : String) (data : StatusMap) :
    StatusMap :=
  let current := (data agent_name).getD
    { state := "in_progress", attempts := 0, start_time := none, end_time := none }
  if current.attempts ≥ MAX_ATTEMPTS then data
  else setStage data agent_name { current with attempts := current.attempts + 1 }

/-- `get_agent_attempts(agent_name)` on a loaded map:
`data.get(agent_name, {}).get("attempts", 0)`. -/
def get_agent_attempts (data : StatusMap) (agent_name : String) : Nat :=
  match data agent_name with
  | some r => r.attempts
  | none => 0

/-- The pipeline sequence chosen by `mark_following_agents_as_error`'s
`mono_mode` flag. -/
def pipelineOf (mono_mode : Bool) : List String :=
  if mono_mode then MONO_PIPELINE else FULL_PIPELINE

/-- The stages `mark_following_agents_as_error` iterates over: the suffix of
the pipeline strictly after the failed agent's first index
(`range(failed_index + 1, len(pipeline))`), or the whole pipeline when the
failed agent is not found (`failed_index = -1`). -/
def cascadeTargets (failed_agent : String) (mono_mode : Bool) : List String :=
  match (pipelineOf mono_mode).indexOf? failed_agent with
  | some i => (pipelineOf mono_mode).drop (i + 1)
  | none => pipelineOf mono_mode

/-- One iteration of the cascade loop body on agent `agent_name`: skipped when
the agent is not in the map; a `done` agent is left alone; otherwise the entry
is replaced by an `error` record keeping `attempts` and `start_time`, with
`end_time := now` when `start_time` is non-null and null otherwise. -/
def cascadeStep (t : Nat) (data : StatusMap) (agent_name : String) : StatusMap :=
  match data agent_name with
  | none => data
  | some current =>
    if current.state = "done" then data
    else setStage data agent_name
      { state := "error", attempts := current.attempts,
        start_time := current.start_time,
        end_time := if current.start_time.isSome then some t else none }

/-- `mark_following_agents_as_error(failed_agent, mono_mode)` from
`analysis_status.py`, acting on a loaded map with current time `t`. -/
def mark_following_agents_as_error (t : Nat) (failed_agent : String)
    (mono_mode : Bool) (data : StatusMap) : StatusMap :=
  (cascadeTargets failed_agent mono_mode).foldl (cascadeStep t) data

/-- The persisted status file: either absent, present but not parseable as
JSON, or present with a parsed status map. -/
inductive StatusFile where
  | missing : StatusFile
  | corrupt : StatusFile
  | good : StatusMap → StatusFile

/-- `_load_analysis_status()`: the parsed file content when the file exists
and parses; otherwise (missing file, or `json.JSONDecodeError`/`IOError`) a
fresh copy of the seven-stage `DEFAULT_AGENTS_STATUS`. -/
def load_analysis_status : StatusFile → StatusMap
  | StatusFile.good d => d
  | _ => DEFAULT_AGENTS_STATUS

/-- File-level `update_analysis_status`: load, transform, save (the save
replaces the whole file). -/
def update_analysis_status_op (t : Nat) (agent_name state : String)
    (fs : StatusFile) : StatusFile :=
  StatusFile.good (update_analysis_status t agent_name state (load_analysis_status fs))

/-- File-level `increment_agent_attempts`. -/
def increment_agent_attempts_op (agent_name : String) (fs : StatusFile) :
    StatusFile :=
  StatusFile.good (increment_agent_attempts agent_name (load_analysis_status fs))

/-- File-level `mark_following_agents_as_error`. -/
def mark_following_agents_as_error_op (t : Nat) (failed_agent : String)
    (mono_mode : Bool) (fs : StatusFile) : StatusFile :=
  StatusFile.good
    (mark_following_agents_as_error t failed_agent mono_mode (load_analysis_status fs))

/-- File-level `get_agent_attempts` (read-only; does not save). -/
def get_agent_attempts_op (agent_name : String) (fs : StatusFile) : Nat :=
  get_agent_attempts (load_analysis_status fs) agent_name

/-- A stage-status-store operation, as quantified over by the spec's
attempts invariant: an `update_analysis_status` call or an
`increment_agent_attempts` call. -/
inductive StoreOp where
  | update (t : Nat) (agent_name state : String) : StoreOp
  | increment (agent_name : String) : StoreOp

/-- Apply one store operation to a loaded status map. -/
def applyOp : StoreOp → StatusMap → StatusMap
  | StoreOp.update t a st, d => update_analysis_status t a st d
  | StoreOp.increment a, d => increment_agent_attempts a d

/-- Run a sequence of store operations left to right. -/
def runOps (ops : List StoreOp) (d : StatusMap) : StatusMap :=
  ops.foldl (fun d op => applyOp op d) d

/-! ### Code runner (`code_execution.py`) -/

/-- A Python value observed by the core: the code runner and the guardrails
only ever test whether a value is a pandas DataFrame, a matplotlib figure, or
`None`; distinct instances are told apart by a tag. -/
inductive PyVal where
  | dataframe (tag : Nat)
  | figure (tag : Nat)
  | pyNone
  | other (tag : Nat)
deriving DecidableEq, Repr

/-- The shared execution namespace (`exec_globals`): a mutable dict mapped
here as a function from variable name to bound value. -/
def Env : Type := String → Option PyVal

/-- A namespace with no bindings. -/
def emptyPyEnv : Env := fun _ => none

/-- The outcome of CPython's `exec(code, exec_globals)` on one code block:
normal return, or a raised exception classified the way the code runner's
`except` clauses classify it (`KeyError` with its `args`, `NameError` with
its message, any other `Exception` with its message).  `exec` mutates the
namespace in place even when it raises, so every outcome carries the
namespace as left by the execution. -/
inductive ExecOutcome where
  | ok (env2 : Env)
  | keyError (env2 : Env) (args : List String)
  | nameError (env2 : Env) (msg : String)
  | otherError (env2 : Env) (msg : String)

/-- The semantics of executing generated Python code: external to the
repository (CPython + pandas), supplied as a parameter. -/
def PyBehavior : Type := String → Env → ExecOutcome

/-- A single-quote character as a string (used in the source's error
messages). -/
def singleQuote : String := String.singleton (Char.ofNat 39)

/-- The message CPython attaches to a `NameError` raised by reading the
undefined identifier `undefined_name`. -/
def nameErrorExampleMsg : String :=
  "name " ++ singleQuote ++ "undefined_name" ++ singleQuote ++ " is not defined"

/-- The code runner's `KeyError` message: names the missing column. -/
def keyErrorMessage (missing_key : String) : String :=
  "Column " ++ singleQuote ++ missing_key ++ singleQuote ++
    " not found. Check column name spelling and ensure it exists in the DataFrame."

/-- Substring occurrence test on code-point lists (Python's `in` operator on
`str`). -/
def subOccurs (pat : List Char) : List Char → Bool
  | [] => List.isPrefixOf pat []
  | c :: rest => List.isPrefixOf pat (c :: rest) || subOccurs pat rest

/-- `pat in s` for Python strings. -/
def strContainsSub (s pat : String) : Bool := subOccurs pat.data s.data

/-- The code runner's `NameError` handling: when the message looks like
`name '...' is not defined` it is wrapped in a hint naming the identifier
(the identifier is inside `error_msg`), otherwise the raw message is kept. -/
def nameErrorMessage (error_msg : String) : String :=
  if strContainsSub error_msg "name" && strContainsSub error_msg "is not defined" then
    "Variable or table name not found: " ++ error_msg ++
      ". Check spelling and ensure tables are loaded."
  else error_msg

/-- The structured result of `validate_python_syntax`:
`{'success': ..., 'error': ..., 'exec_globals': ...}`. -/
structure RunResult where
  success : Bool
  error : Option String
  exec_globals : Env

/-- `validate_python_syntax(code, exec_globals)` from `code_execution.py`:
executes the code and converts every raised exception into a structured
result; `KeyError` reports the missing column (`str(e.args[0])` when `args`
is non-empty, and the empty `str(e)` of an argument-less `KeyError`
otherwise), `NameError` reports the undefined name, any other exception
reports its raw message. -/
def validate_python_syntax (behavior : PyBehavior) (code : String)
    (exec_globals : Env) : RunResult :=
  match behavior code exec_globals with
  | ExecOutcome.ok env2 =>
      { success := true, error := none, exec_globals := env2 }
  | ExecOutcome.keyError env2 args =>
      { success := false, error := some (keyErrorMessage (args.headD "")),
        exec_globals := env2 }
  | ExecOutcome.nameError env2 msg =>
      { success := false, error := some (nameErrorMessage msg), exec_globals := env2 }
  | ExecOutcome.otherError env2 msg =>
      { success := false, error := some msg, exec_globals := env2 }

/-! ### Execution environment builder (`create_execution_env`) -/

/-- An entry of the built execution environment: a library handle or a
dataframe identified by the stem of the CSV file it was loaded from. -/
inductive EnvEntry where
  | lib (name : String)
  | df (stem : String)
deriving DecidableEq, Repr

/-- The fixed library bindings installed before any CSV is loaded. -/
def baseExecutionEnv : String → Option EnvEntry := fun s =>
  if s = "pd" ∨ s = "plt" ∨ s = "sns" ∨ s = "matplotlib" ∨ s = "seaborn" ∨
      s = "__builtins__" then
    some (EnvEntry.lib s)
  else none

/-- One iteration of the CSV-loading loop: bind the table under its file
stem, and — when the stem ends in `'s'` and has length > 1 — additionally
bind the same dataframe under the singular alias `table_name[:-1]`.
`endswith('s')`, `len` and slicing act on Python code points, modeled on the
stem's character list. -/
def bindCsv (env : String → Option EnvEntry) (stem : String) :
    String → Option EnvEntry :=
  let env1 : String → Option EnvEntry :=
    fun s => if s = stem then some (EnvEntry.df stem) else env s
  if stem.data.getLast? = some 's' ∧ 1 < stem.data.length then
    fun s =>
      if s = (⟨stem.data.dropLast⟩ : String) then some (EnvEntry.df stem) else env1 s
  else env1

/-- `create_execution_env()` from `code_execution.py`, with the data
directory abstracted to the list of CSV file stems in the order the loop
visits them (the source iterates `sorted(OUTPUT_DATA_DIR.glob("*.csv"))`). -/
def create_execution_env (stems : List String) : String → Option EnvEntry :=
  stems.foldl bindCsv baseExecutionEnv

/-- Whether loading the CSV with stem `stem` writes the environment key `k`:
either directly (`k` is the stem) or through the singular alias (the stem
ends in `'s'`, has length > 1, and `k` is the stem without its last
character). -/
def writesKey (stem k : String) : Bool :=
  decide (stem = k ∨
    (stem.data.getLast? = some 's' ∧ 1 < stem.data.length ∧
      (⟨stem.data.dropLast⟩ : String) = k))

/-- Whether a looked-up value is a pandas DataFrame
(`query_output is not None and isinstance(query_output, pd.DataFrame)`). -/
def isDataFrameVal : Option PyVal → Bool
  | some (PyVal.dataframe _) => true
  | _ => false

/-! ### Guardrail execution loops
(`queries_guardrail.py`, `mono_agent_guardrail.py`) -/

/-- One parsed sub-analysis item, with the fields the guardrails read.  In
the model every field is present; the guardrails read absent fields through
`.get` defaults, which coincide with empty values here. -/
structure SubAnalysis where
  id : String
  title : String
  why : String
  answers : List String
  tables_columns : List String
  type : String
  code_lines : List String
  visualization_code : List String
  visualization_type : String
  justification : String
deriving DecidableEq, Repr

/-- One parsed top-level analysis item. -/
structure AnalysisItem where
  id : String
  title : String
  context : String
  tables : List String
  sub_analyses : List SubAnalysis
deriving DecidableEq, Repr

/-- A failure record collected in `failed_queries`/`failed_items`. -/
structure FailureRecord where
  analysis_id : String
  sub_analysis_id : String
  title : String
  error_type : String
  error_msg : String
deriving DecidableEq, Repr

/-- The `"Missing or empty 'code_lines' field"` message. -/
def missingCodeMessage : String :=
  "Missing or empty " ++ singleQuote ++ "code_lines" ++ singleQuote ++ " field"

/-- The `"Result is not a DataFrame ..."` message. -/
def notDataFrameMessage : String :=
  "Result is not a DataFrame (variable " ++ singleQuote ++ "result" ++
    singleQuote ++ " missing or invalid)"

/-- The `"Missing or empty 'visualization_code' field"` message. -/
def missingVizCodeMessage : String :=
  "Missing or empty " ++ singleQuote ++ "visualization_code" ++ singleQuote ++ " field"

/-- The `"Variable 'result_plot' not found ..."` message. -/
def missingResultPlotMessage : String :=
  "Variable " ++ singleQuote ++ "result_plot" ++ singleQuote ++
    " not found after visualization code execution"

/-- The `"Error saving visualization image: ..."` message. -/
def saveImageErrorMessage (e : String) : String :=
  "Error saving visualization image: " ++ e

/-- The per-sub-item entry of the queries guardrail's execution snapshot.
The pandas metadata fields (`result_shape`, `result_columns`,
`result_dtypes`) are derived from the stored dataframe and are not modeled
separately. -/
structure QuerySubResult where
  id : String
  title : String
  why : String
  answers : List String
  tables_columns : List String
  type : String
  code_lines : List String
  query_success : Bool
  query_error : Option String
  result_dataframe : Option PyVal
deriving DecidableEq, Repr

/-- The sub-result dict as first built, before any execution step. -/
def initQuerySubResult (sub : SubAnalysis) : QuerySubResult :=
  { id := sub.id, title := sub.title, why := sub.why, answers := sub.answers,
    tables_columns := sub.tables_columns, type := sub.type,
    code_lines := sub.code_lines, query_success := false, query_error := none,
    result_dataframe := none }

/-- One top-level entry of the queries guardrail's execution snapshot. -/
structure QueryAnalysisResult where
  id : String
  title : String
  context : String
  tables : List String
  sub_analyses : List QuerySubResult
deriving DecidableEq, Repr

/-- The aggregate counters of the queries guardrail's snapshot. -/
structure QuerySummary where
  total_queries : Nat
  successful_queries : Nat
  failed_queries : Nat
deriving DecidableEq, Repr

/-- The queries guardrail's serialized snapshot (`results_dict`). -/
structure QueryResultsDict where
  analyses : List QueryAnalysisResult
  summary : QuerySummary
deriving Repr

/-- State threaded through the queries guardrail's execution loop. -/
structure QueryExecState where
  env : Env
  summary : QuerySummary
  failed_queries : List FailureRecord

/-- The queries guardrail's per-sub-analysis body.  Returns the new state
and the sub-result entry appended to the analysis entry — `none` when the
branch does not append one.  Mirrors the source exactly: the
missing-code and execution-error branches append the entry, the
result-is-not-a-DataFrame branch counts the failure and `continue`s
without appending, and the success path appends at the end of the body. -/
def processQuerySub (behavior : PyBehavior) (analysis_id : String)
    (st : QueryExecState) (sub : SubAnalysis) :
    QueryExecState × Option QuerySubResult :=
  let st :=
    { st with summary :=
        { st.summary with total_queries := st.summary.total_queries + 1 } }
  let base := initQuerySubResult sub
  if sub.code_lines.isEmpty then
    ({ st with
        summary :=
          { st.summary with failed_queries := st.summary.failed_queries + 1 },
        failed_queries := st.failed_queries ++
          [⟨analysis_id, sub.id, sub.title, "missing_code", missingCodeMessage⟩] },
      some { base with query_error := some missingCodeMessage })
  else
    let query_code := String.intercalate "\n" sub.code_lines
    let qr := validate_python_syntax behavior query_code st.env
    let st := { st with env := qr.exec_globals }
    if qr.success = false then
      let error_msg := qr.error.getD "Unknown error"
      ({ st with
          summary :=
            { st.summary with failed_queries := st.summary.failed_queries + 1 },
          failed_queries := st.failed_queries ++
            [⟨analysis_id, sub.id, sub.title, "execution_error", error_msg⟩] },
        some { base with query_error := some error_msg })
    else
      match st.env "result" with
      | some (PyVal.dataframe tag) =>
          ({ st with
              summary :=
                { st.summary with
                    successful_queries := st.summary.successful_queries + 1 } },
            some { base with
                    query_success := true,
                    result_dataframe := some (PyVal.dataframe tag) })
      | _ =>
          ({ st with
              summary :=
                { st.summary with failed_queries := st.summary.failed_queries + 1 },
              failed_queries := st.failed_queries ++
                [⟨analysis_id, sub.id, sub.title, "not_dataframe",
                  notDataFrameMessage⟩] },
            none)

/-- One inner-loop iteration of the queries guardrail: process the sub-item
and append its entry when the branch produced one. -/
def querySubStep (behavior : PyBehavior) (analysis_id : String)
    (acc : QueryExecState × List QuerySubResult) (sub : SubAnalysis) :
    QueryExecState × List QuerySubResult :=
  let next := processQuerySub behavior analysis_id acc.1 sub
  (next.1, match next.2 with
    | some r => acc.2 ++ [r]
    | none => acc.2)

/-- The queries guardrail's per-analysis loop. -/
def processQueryAnalysis (behavior : PyBehavior) (st : QueryExecState)
    (analysis : AnalysisItem) : QueryExecState × QueryAnalysisResult :=
  let stepped := analysis.sub_analyses.foldl
    (querySubStep behavior analysis.id) (st, [])
  (stepped.1,
    { id := analysis.id, title := analysis.title, context := analysis.context,
      tables := analysis.tables, sub_analyses := stepped.2 })

/-- One outer-loop iteration of the queries guardrail. -/
def queryAnalysisStep (behavior : PyBehavior)
    (acc : QueryExecState × List QueryAnalysisResult) (a : AnalysisItem) :
    QueryExecState × List QueryAnalysisResult :=
  let next := processQueryAnalysis behavior acc.1 a
  (next.1, acc.2 ++ [next.2])

/-- The execution phase of `queries_guardrail` (lines 97–205 of the source):
runs every sub-analysis against the shared environment and builds the
snapshot persisted to the pickle file, the failure list and the final
environment. -/
def queries_guardrail_execute (behavior : PyBehavior) (env0 : Env)
    (analyses : List AnalysisItem) :
    QueryResultsDict × List FailureRecord × Env :=
  let init : QueryExecState :=
    { env := env0, summary := ⟨0, 0, 0⟩, failed_queries := [] }
  let final := analyses.foldl (queryAnalysisStep behavior) (init, [])
  ({ analyses := final.2, summary := final.1.summary },
    final.1.failed_queries, final.1.env)

/-- A `json.JSONDecodeError`: message, line and column. -/
structure JsonDecodeError where
  msg : String
  lineno : Nat
  colno : Nat

/-- `format_json_error` from `error_formatter.py`. -/
def format_json_error (e : JsonDecodeError) : String :=
  "❌ JSON ERROR\n\nProblem: Malformed JSON at line " ++ toString e.lineno ++
    ", column " ++ toString e.colno ++ ".\nDetail: " ++ e.msg ++
    "\n\nFix: Check JSON syntax (commas, quotes, braces)."

/-- The JSON-parse-failure path of `queries_guardrail` (source lines 44–62),
with the status store already loaded: when the recorded attempts have
reached `MAX_ATTEMPTS` the stage is marked `error` and the failure cascades
over the full pipeline; otherwise the attempts counter is incremented.
Either way the guardrail returns `(False, format_json_error(e))`. -/
def queries_guardrail_json_failure (t : Nat) (e : JsonDecodeError)
    (data : StatusMap) : (Bool × String) × StatusMap :=
  let attempts := get_agent_attempts data "query_builder"
  if attempts ≥ MAX_ATTEMPTS then
    let data1 := update_analysis_status t "query_builder" "error" data
    let data2 := mark_following_agents_as_error t "query_builder" false data1
    ((false, format_json_error e), data2)
  else
    let data1 := increment_agent_attempts "query_builder" data
    ((false, format_json_error e), data1)

/-- The aggregate counters of the mono-agent guardrail's snapshot. -/
structure MonoSummary where
  total_queries : Nat
  successful_queries : Nat
  failed_queries : Nat
  total_visualizations : Nat
  successful_visualizations : Nat
  failed_visualizations : Nat
deriving DecidableEq, Repr

/-- The per-sub-item entry of the mono-agent guardrail's snapshot (pandas
metadata fields derived from the stored dataframe are not modeled
separately; the `result_plot` field stored as `None` on success is implied
by `visualization_image_path`). -/
structure MonoSubResult where
  id : String
  title : String
  why : String
  answers : List String
  tables_columns : List String
  type : String
  code_lines : List String
  query_success : Bool
  query_error : Option String
  result_dataframe : Option PyVal
  visualization_code : List String
  visualization_type : String
  justification : String
  visualization_success : Bool
  visualization_error : Option String
  visualization_image_path : Option String
deriving DecidableEq, Repr

/-- The mono sub-result dict as first built. -/
def initMonoSubResult (sub : SubAnalysis) : MonoSubResult :=
  { id := sub.id, title := sub.title, why := sub.why, answers := sub.answers,
    tables_columns := sub.tables_columns, type := sub.type,
    code_lines := sub.code_lines, query_success := false, query_error := none,
    result_dataframe := none, visualization_code := sub.visualization_code,
    visualization_type := sub.visualization_type,
    justification := sub.justification, visualization_success := false,
    visualization_error := none, visualization_image_path := none }

/-- One top-level entry of the mono-agent guardrail's snapshot. -/
structure MonoAnalysisResult where
  id : String
  title : String
  context : String
  tables : List String
  sub_analyses : List MonoSubResult
deriving DecidableEq, Repr

/-- The mono-agent guardrail's serialized snapshot. -/
structure MonoResultsDict where
  analyses : List MonoAnalysisResult
  summary : MonoSummary
deriving Repr

/-- State threaded through the mono-agent guardrail's execution loop. -/
structure MonoExecState where
  env : Env
  summary : MonoSummary
  failed_items : List FailureRecord

/-- `matplotlib`'s `Figure.savefig`, external to the repository: `none` on
success, `some msg` when it raises an exception with message `msg`. -/
def SaveBehavior : Type := PyVal → Option String

/-- Python's `x is None` on the looked-up `result_plot`: true for an absent
key and for a key bound to `None`. -/
def isPyNone : Option PyVal → Bool
  | none => true
  | some PyVal.pyNone => true
  | _ => false

/-- The mono-agent guardrail's per-sub-analysis body.  Every branch —
missing query code, query execution failure, result not a DataFrame,
missing visualization code, visualization failure, missing `result_plot`,
image-save failure, and full success — appends the sub-result entry.  A
failure at the query step counts toward both `failed_queries` and
`failed_visualizations`. -/
def processMonoSub (behavior : PyBehavior) (savefig : SaveBehavior)
    (analysis_id : String) (st : MonoExecState) (sub : SubAnalysis) :
    MonoExecState × MonoSubResult :=
  let st :=
    { st with summary :=
        { st.summary with
            total_queries := st.summary.total_queries + 1,
            total_visualizations := st.summary.total_visualizations + 1 } }
  let base := initMonoSubResult sub
  if sub.code_lines.isEmpty then
    ({ st with
        summary :=
          { st.summary with
              failed_queries := st.summary.failed_queries + 1,
              failed_visualizations := st.summary.failed_visualizations + 1 },
        failed_items := st.failed_items ++
          [⟨analysis_id, sub.id, sub.title, "query", missingCodeMessage⟩] },
      { base with query_error := some missingCodeMessage })
  else
    let query_code := String.intercalate "\n" sub.code_lines
    let qr := validate_python_syntax behavior query_code st.env
    let st := { st with env := qr.exec_globals }
    if qr.success = false then
      let error_msg := qr.error.getD "Unknown error"
      ({ st with
          summary :=
            { st.summary with
                failed_queries := st.summary.failed_queries + 1,
                failed_visualizations := st.summary.failed_visualizations + 1 },
          failed_items := st.failed_items ++
            [⟨analysis_id, sub.id, sub.title, "query", error_msg⟩] },
        { base with query_error := some error_msg })
    else
      match st.env "result" with
      | some (PyVal.dataframe tag) =>
          let st :=
            { st with summary :=
                { st.summary with
                    successful_queries := st.summary.successful_queries + 1 } }
          let base1 :=
            { base with
                query_success := true,
                result_dataframe := some (PyVal.dataframe tag) }
          if sub.visualization_code.isEmpty then
            ({ st with
                summary :=
                  { st.summary with
                      failed_visualizations :=
                        st.summary.failed_visualizations + 1 },
                failed_items := st.failed_items ++
                  [⟨analysis_id, sub.id, sub.title, "visualization",
                    missingVizCodeMessage⟩] },
              { base1 with visualization_error := some missingVizCodeMessage })
          else
            let viz_code := String.intercalate "\n" sub.visualization_code
            let vr := validate_python_syntax behavior viz_code st.env
            let st := { st with env := vr.exec_globals }
            if vr.success = false then
              let error_msg := vr.error.getD "Unknown error"
              ({ st with
                  summary :=
                    { st.summary with
                        failed_visualizations :=
                          st.summary.failed_visualizations + 1 },
                  failed_items := st.failed_items ++
                    [⟨analysis_id, sub.id, sub.title, "visualization",
                      error_msg⟩] },
                { base1 with visualization_error := some error_msg })
            else
              let rp := st.env "result_plot"
              if isPyNone rp then
                ({ st with
                    summary :=
                      { st.summary with
                          failed_visualizations :=
                            st.summary.failed_visualizations + 1 },
                    failed_items := st.failed_items ++
                      [⟨analysis_id, sub.id, sub.title, "visualization",
                        missingResultPlotMessage⟩] },
                  { base1 with
                      visualization_error := some missingResultPlotMessage })
              else
                (match savefig (rp.getD PyVal.pyNone) with
                | none =>
                    ({ st with
                        summary :=
                          { st.summary with
                              successful_visualizations :=
                                st.summary.successful_visualizations + 1 } },
                      { base1 with
                          visualization_success := true,
                          visualization_image_path :=
                            some (analysis_id ++ "_" ++ sub.id ++ "_viz.png") })
                | some emsg =>
                    ({ st with
                        summary :=
                          { st.summary with
                              failed_visualizations :=
                                st.summary.failed_visualizations + 1 },
                        failed_items := st.failed_items ++
                          [⟨analysis_id, sub.id, sub.title, "visualization",
                            saveImageErrorMessage emsg⟩] },
                      { base1 with
                          visualization_error :=
                            some (saveImageErrorMessage emsg) }))
      | _ =>
          ({ st with
              summary :=
                { st.summary with
                    failed_queries := st.summary.failed_queries + 1,
                    failed_visualizations := st.summary.failed_visualizations + 1 },
              failed_items := st.failed_items ++
                [⟨analysis_id, sub.id, sub.title, "query", notDataFrameMessage⟩] },
            { base with query_error := some notDataFrameMessage })

/-- One inner-loop iteration of the mono-agent guardrail: process the
sub-item and append its entry (every branch appends). -/
def monoSubStep (behavior : PyBehavior) (savefig : SaveBehavior)
    (analysis_id : String) (acc : MonoExecState × List MonoSubResult)
    (sub : SubAnalysis) : MonoExecState × List MonoSubResult :=
  let next := processMonoSub behavior savefig analysis_id acc.1 sub
  (next.1, acc.2 ++ [next.2])

/-- The mono-agent guardrail's per-analysis loop (every sub-result entry is
appended). -/
def processMonoAnalysis (behavior : PyBehavior) (savefig : SaveBehavior)
    (st : MonoExecState) (analysis : AnalysisItem) :
    MonoExecState × MonoAnalysisResult :=
  let stepped := analysis.sub_analyses.foldl
    (monoSubStep behavior savefig analysis.id) (st, [])
  (stepped.1,
    { id := analysis.id, title := analysis.title, context := analysis.context,
      tables := analysis.tables, sub_analyses := stepped.2 })

/-- One outer-loop iteration of the mono-agent guardrail. -/
def monoAnalysisStep (behavior : PyBehavior) (savefig : SaveBehavior)
    (acc : MonoExecState × List MonoAnalysisResult) (a : AnalysisItem) :
    MonoExecState × List MonoAnalysisResult :=
  let next := processMonoAnalysis behavior savefig acc.1 a
  (next.1, acc.2 ++ [next.2])

/-- The execution phase of `mono_agent_guardrail` (source lines 101–301):
the snapshot, the failure list and the final environment. -/
def mono_agent_guardrail_execute (behavior : PyBehavior)
    (savefig : SaveBehavior) (env0 : Env) (analyses : List AnalysisItem) :
    MonoResultsDict × List FailureRecord × Env :=
  let init : MonoExecState :=
    { env := env0, summary := ⟨0, 0, 0, 0, 0, 0⟩, failed_items := [] }
  let final := analyses.foldl (monoAnalysisStep behavior savefig) (init, [])
  ({ analyses := final.2, summary := final.1.summary },
    final.1.failed_items, final.1.env)

/-! ### Result analyzer (`queries_analyser.py`, `analyze_dataframe`) -/

/-- One cell value of a pandas column, as far as `analyze_dataframe`
observes it: a numeric value (floats modeled as rationals), a string, or an
unhashable object (a list/dict, which makes `nunique` raise `TypeError`). -/
inductive Cell where
  | num (q : ℚ)
  | strVal (s : String)
  | unhashable (tag : Nat)
deriving DecidableEq, Repr

/-- The dtype classification the analyzer branches on
(`pd.api.types.is_numeric_dtype` / `is_string_dtype` / neither). -/
inductive DType where
  | numeric
  | stringType
  | objectType
deriving DecidableEq, Repr

/-- A pandas Series: its dtype and its cells (`none` is a null / `NaN`). -/
structure Series where
  dtype : DType
  cells : List (Option Cell)
deriving DecidableEq, Repr

/-- A pandas DataFrame: row count and named columns. -/
structure DataFrameM where
  nrows : Nat
  columns : List (String × Series)
deriving DecidableEq, Repr

/-- Whether a cell holds an unhashable value. -/
def isUnhashableCell : Option Cell → Bool
  | some (Cell.unhashable _) => true
  | _ => false

/-- The non-null cells of a column. -/
def nonNullCells (cells : List (Option Cell)) : List Cell := cells.filterMap id

/-- `series.nunique(dropna=True)`: the number of distinct non-null values;
raises `TypeError` — modeled as `none`, the value the analyzer stores after
catching it — when the column holds an unhashable value. -/
def nuniqueDrop (cells : List (Option Cell)) : Option Nat :=
  if cells.any isUnhashableCell then none
  else some (nonNullCells cells).dedup.length

/-- The numeric values of a column, in order, nulls skipped. -/
def numericValues (cells : List (Option Cell)) : List ℚ :=
  cells.filterMap (fun c => match c with
    | some (Cell.num q) => some q
    | _ => none)

/-- The string values of a column, nulls skipped (`series.dropna()`). -/
def stringValues (cells : List (Option Cell)) : List String :=
  cells.filterMap (fun c => match c with
    | some (Cell.strVal s) => some s
    | _ => none)

/-- `series.min()` with pandas' default `skipna`; `NaN` on an all-null
column, which `pd.notna` turns into `none`. -/
def seriesMin (xs : List ℚ) : Option ℚ :=
  match xs with
  | [] => none
  | x :: rest => some (rest.foldl min x)

/-- `series.max()`, same conventions as `seriesMin`. -/
def seriesMax (xs : List ℚ) : Option ℚ :=
  match xs with
  | [] => none
  | x :: rest => some (rest.foldl max x)

/-- `series.mean()` over non-null values, `none` when there are none. -/
def seriesMean (xs : List ℚ) : Option ℚ :=
  match xs with
  | [] => none
  | _ => some (xs.sum / (xs.length : ℚ))

/-- `non_null.str.len().mean()` for string columns. -/
def avgLength (ss : List String) : Option ℚ :=
  match ss with
  | [] => none
  | _ => some ((ss.map (fun s => (s.length : ℚ))).sum / (ss.length : ℚ))

/-- `non_null.str.len().max()` for string columns. -/
def maxLength (ss : List String) : Option Nat :=
  match ss with
  | [] => none
  | s :: rest => some (rest.foldl (fun m x => max m x.length) s.length)

/-- The numeric statistics block added for numeric columns.  `series.std()`
is a pandas computation involving a square root; it is abstracted as the
`stdFn` parameter of the analyzer. -/
structure NumericStats where
  min : Option ℚ
  max : Option ℚ
  mean : Option ℚ
  std : Option ℚ

/-- The string statistics block added for string columns. -/
structure StringStats where
  avg_length : Option ℚ
  max_length : Option Nat
deriving DecidableEq, Repr

/-- The per-column entry of `analyze_dataframe`'s schema. -/
structure ColumnInfo where
  type : DType
  nullable : Bool
  null_count : Nat
  unique_count : Option Nat
  numeric_stats : Option NumericStats
  string_stats : Option StringStats

/-- The per-column body of `analyze_dataframe`: null statistics and unique
count always; numeric statistics for numeric dtypes, string statistics for
string dtypes (the source's `if`/`elif`, exclusive by construction). -/
def analyzeSeries (stdFn : List ℚ → Option ℚ) (s : Series) : ColumnInfo :=
  { type := s.dtype,
    nullable := s.cells.any (fun c => c.isNone),
    null_count := s.cells.countP (fun c => c.isNone),
    unique_count := nuniqueDrop s.cells,
    numeric_stats :=
      if s.dtype = DType.numeric then
        some
          { min := seriesMin (numericValues s.cells),
            max := seriesMax (numericValues s.cells),
            mean := seriesMean (numericValues s.cells),
            std := stdFn (numericValues s.cells) }
      else none,
    string_stats :=
      if s.dtype = DType.stringType then
        some
          { avg_length := avgLength (stringValues s.cells),
            max_length := maxLength (stringValues s.cells) }
      else none }

/-- The schema returned by `analyze_dataframe`. -/
structure DataFrameSchema where
  row_count : Nat
  column_count : Nat
  columns : List (String × ColumnInfo)

/-- `analyze_dataframe(df)` from `queries_analyser.py`. -/
def analyze_dataframe (stdFn : List ℚ → Option ℚ) (df : DataFrameM) :
    DataFrameSchema :=
  { row_count := df.nrows,
    column_count := df.columns.length,
    columns := df.columns.map (fun p => (p.1, analyzeSeries stdFn p.2)) }

/-! ## Theorems -/

theorem setStage_apply_self (d : StatusMap) (n : String) (r : StageRecord) :
    setStage d n r n = some r := by
  simp [setStage]

theorem setStage_apply_ne (d : StatusMap) (n : String) (r : StageRecord)
    (s : String) (h : s ≠ n) : setStage d n r s = d s := by
  simp [setStage, h]

theorem get_agent_attempts_eq_getD (d : StatusMap) (a : String) :
    get_agent_attempts d a = ((d a).getD defaultStageRecord).attempts := by
  cases h : d a <;> simp [get_agent_attempts, h, defaultStageRecord]

theorem get_setStage_self (d : StatusMap) (n : String) (r : StageRecord) :
    get_agent_attempts (setStage d n r) n = r.attempts := by
  simp [get_agent_attempts, setStage]

theorem get_setStage_ne (d : StatusMap) (n : String) (r : StageRecord)
    (s : String) (h : s ≠ n) :
    get_agent_attempts (setStage d n r) s = get_agent_attempts d s := by
  simp [get_agent_attempts, setStage, h]

theorem increment_eq_of_max (a : String) (d : StatusMap) (r : StageRecord)
    (hda : d a = some r) (h : MAX_ATTEMPTS ≤ r.attempts) :
    increment_agent_attempts a d = d := by
  unfold increment_agent_attempts
  rw [hda]
  simp only [Option.getD_some]
  rw [if_pos h]

theorem increment_eq_of_lt (a : String) (d : StatusMap) (r : StageRecord)
    (hda : d a = some r) (h : r.attempts < MAX_ATTEMPTS) :
    increment_agent_attempts a d =
      setStage d a { r with attempts := r.attempts + 1 } := by
  unfold increment_agent_attempts
  rw [hda]
  simp only [Option.getD_some]
  rw [if_neg (not_le.mpr h)]

theorem increment_eq_of_none (a : String) (d : StatusMap) (hda : d a = none) :
    increment_agent_attempts a d =
      setStage d a ⟨"in_progress", 1, none, none⟩ := by
  unfold increment_agent_attempts
  rw [hda]
  simp [MAX_ATTEMPTS]

theorem update_analysis_status_apply_ne (t : Nat) (a st : String)
    (d : StatusMap) (s : String) (h : s ≠ a) :
    update_analysis_status t a st d s = d s := by
  simp [update_analysis_status, setStage, h]

theorem increment_agent_attempts_apply_ne (a : String) (d : StatusMap)
    (s : String) (h : s ≠ a) :
    increment_agent_attempts a d s = d s := by
  unfold increment_agent_attempts
  split
  · rfl
  · exact setStage_apply_ne _ _ _ _ h

theorem update_attempts_mono (t : Nat) (a st : String) (d : StatusMap)
    (s : String) :
    get_agent_attempts d s ≤
      get_agent_attempts (update_analysis_status t a st d) s := by
  by_cases hs : s = a
  · subst hs
    cases h : d s with
    | none => simp [update_analysis_status, setStage, get_agent_attempts, h]
    | some r =>
      simp [update_analysis_status, setStage, get_agent_attempts, h]
      split_ifs <;> omega
  · have h2 : (update_analysis_status t a st d) s = d s :=
      update_analysis_status_apply_ne t a st d s hs
    unfold get_agent_attempts
    rw [h2]

theorem increment_attempts_mono (a : String) (d : StatusMap) (s : String) :
    get_agent_attempts d s ≤
      get_agent_attempts (increment_agent_attempts a d) s := by
  by_cases hs : s = a
  · subst hs
    cases h : d s with
    | none =>
      rw [increment_eq_of_none s d h, get_setStage_self]
      simp [get_agent_attempts, h]
    | some r =>
      by_cases hr : MAX_ATTEMPTS ≤ r.attempts
      · rw [increment_eq_of_max s d r h hr]
      · rw [increment_eq_of_lt s d r h (not_le.mp hr), get_setStage_self]
        simp [get_agent_attempts, h]
  · unfold get_agent_attempts
    rw [increment_agent_attempts_apply_ne a d s hs]

theorem applyOp_attempts_mono (op : StoreOp) (d : StatusMap) (s : String) :
    get_agent_attempts d s ≤ get_agent_attempts (applyOp op d) s := by
  cases op with
  | update t a st => exact update_attempts_mono t a st d s
  | increment a => exact increment_attempts_mono a d s

theorem runOps_attempts_mono (ops : List StoreOp) (d : StatusMap) (s : String) :
    get_agent_attempts d s ≤ get_agent_attempts (runOps ops d) s := by
  induction ops generalizing d with
  | nil => exact le_rfl
  | cons op rest ih =>
    exact le_trans (applyOp_attempts_mono op d s) (ih (applyOp op d))

/-- C1 (amended): under any sequence of stage-status-store operations the
attempts counter of every stage is monotonically non-decreasing;
`increment_agent_attempts` is a no-op once the recorded attempts have
reached `MAX_ATTEMPTS` and otherwise adds exactly one, so it never pushes a
counter that was at most 4 past 4; and `update_analysis_status` entering
`in_progress` from any other state adds exactly one to the attempts counter
unconditionally — it carries no cap check. -/
theorem c1_attempts_monotone_increment_capped :
    (∀ (ops : List StoreOp) (d : StatusMap) (s : String),
      get_agent_attempts d s ≤ get_agent_attempts (runOps ops d) s) ∧
    (∀ (d : StatusMap) (a : String),
      MAX_ATTEMPTS ≤ get_agent_attempts d a → increment_agent_attempts a d = d) ∧
    (∀ (d : StatusMap) (a s : String),
      get_agent_attempts d s ≤ MAX_ATTEMPTS →
      get_agent_attempts (increment_agent_attempts a d) s ≤ MAX_ATTEMPTS) ∧
    (∀ (t : Nat) (a : String) (d : StatusMap),
      ((d a).getD defaultStageRecord).state ≠ "in_progress" →
      get_agent_attempts (update_analysis_status t a "in_progress" d) a =
        get_agent_attempts d a + 1) := by
  refine ⟨runOps_attempts_mono, ?_, ?_, ?_⟩
  · intro d a h
    rw [get_agent_attempts_eq_getD] at h
    cases hda : d a with
    | none =>
      rw [hda] at h
      exact absurd h (by decide)
    | some r =>
      rw [hda] at h
      simp only [Option.getD] at h
      unfold increment_agent_attempts
      rw [hda]
      simp only [Option.getD_some]
      rw [if_pos h]
  · intro d a s h
    by_cases hs : s = a
    · subst hs
      cases hda : d s with
      | none =>
        rw [increment_eq_of_none s d hda, get_setStage_self]
        decide
      | some r =>
        by_cases hr : MAX_ATTEMPTS ≤ r.attempts
        · rw [increment_eq_of_max s d r hda hr]
          exact h
        · rw [increment_eq_of_lt s d r hda (not_le.mp hr), get_setStage_self]
          have := not_le.mp hr
          simp only [MAX_ATTEMPTS] at this ⊢
          omega
    · unfold get_agent_attempts
      rw [increment_agent_attempts_apply_ne a d s hs]
      unfold get_agent_attempts at h
      exact h
  · intro t a d h
    cases hda : d a with
    | none =>
      rw [hda] at h
      simp only [Option.getD_none] at h
      simp [update_analysis_status, setStage, get_agent_attempts, hda, h,
        defaultStageRecord]
    | some r =>
      rw [hda] at h
      simp only [Option.getD_some] at h
      simp [update_analysis_status, setStage, get_agent_attempts, hda, h]

/-- C1 counterexample: the claim "the stage's attempts counter ... never
exceeds 4" is false for sequences that re-enter `in_progress`:
five `waiting`/`in_progress` round trips on `raw_schema` drive its attempts
counter to 5. -/
theorem c1_attempts_cap_counterexample :
    ¬ (∀ (ops : List StoreOp) (s : String),
        get_agent_attempts (runOps ops DEFAULT_AGENTS_STATUS) s ≤ MAX_ATTEMPTS) :=
  fun h =>
    absurd
      (h [StoreOp.update 0 "raw_schema" "in_progress",
          StoreOp.update 1 "raw_schema" "waiting",
          StoreOp.update 2 "raw_schema" "in_progress",
          StoreOp.update 3 "raw_schema" "waiting",
          StoreOp.update 4 "raw_schema" "in_progress",
          StoreOp.update 5 "raw_schema" "waiting",
          StoreOp.update 6 "raw_schema" "in_progress",
          StoreOp.update 7 "raw_schema" "waiting",
          StoreOp.update 8 "raw_schema" "in_progress"] "raw_schema")
      (by decide)

/-- Witness for `c1_attempts_monotone_increment_capped` at concrete inputs:
a stage at 4 attempts is left unchanged by `increment_agent_attempts`, a
stage at 3 attempts stays within the cap, and an `in_progress` entry from
`waiting` adds one. -/
theorem c1_attempts_monotone_increment_capped_witness :
    (get_agent_attempts DEFAULT_AGENTS_STATUS "raw_schema" ≤
      get_agent_attempts
        (runOps [StoreOp.increment "raw_schema"] DEFAULT_AGENTS_STATUS)
        "raw_schema") ∧
    (increment_agent_attempts "query_builder"
        (setStage DEFAULT_AGENTS_STATUS "query_builder"
          ⟨"in_progress", 4, none, none⟩) =
      setStage DEFAULT_AGENTS_STATUS "query_builder"
        ⟨"in_progress", 4, none, none⟩) ∧
    (get_agent_attempts
        (increment_agent_attempts "query_builder"
          (setStage DEFAULT_AGENTS_STATUS "query_builder"
            ⟨"in_progress", 3, none, none⟩))
        "query_builder" ≤ MAX_ATTEMPTS) ∧
    (get_agent_attempts
        (update_analysis_status 9 "raw_schema" "in_progress"
          DEFAULT_AGENTS_STATUS) "raw_schema" =
      get_agent_attempts DEFAULT_AGENTS_STATUS "raw_schema" + 1) :=
  ⟨c1_attempts_monotone_increment_capped.1 [StoreOp.increment "raw_schema"]
      DEFAULT_AGENTS_STATUS "raw_schema",
    c1_attempts_monotone_increment_capped.2.1 _ "query_builder" (by decide),
    c1_attempts_monotone_increment_capped.2.2.1 _ "query_builder"
      "query_builder" (by decide),
    c1_attempts_monotone_increment_capped.2.2.2 9 "raw_schema"
      DEFAULT_AGENTS_STATUS (by decide)⟩

/-- C4 (amended): `update_analysis_status` stamps `end_time` on every
transition into `done` from a non-`done` state (so it is set exactly once
as long as the stage never leaves `done`); an update of a `done` stage with
any new state other than `in_progress` leaves `start_time` and `end_time`
unchanged; but an update of a `done` stage to `in_progress` re-stamps
`start_time`, clears `end_time` and increments `attempts`. -/
theorem c4_done_stage_time_framing (t : Nat) (agent st : String)
    (d : StatusMap) (r r2 : StageRecord) (hda : d agent = some r)
    (hupd : (update_analysis_status t agent st d) agent = some r2) :
    (r.state = "done" → st ≠ "in_progress" →
      r2.start_time = r.start_time ∧ r2.end_time = r.end_time) ∧
    (st = "done" → r.state ≠ "done" → r2.end_time = some t) ∧
    (st = "done" → r.state = "done" →
      r2.start_time = r.start_time ∧ r2.end_time = r.end_time) ∧
    (r.state = "done" → st = "in_progress" →
      r2.start_time = some t ∧ r2.end_time = none ∧
        r2.attempts = r.attempts + 1) := by
  simp only [update_analysis_status, setStage, hda, Option.getD_some,
    eq_self_iff_true, ite_true, Option.some.injEq] at hupd
  subst hupd
  refine ⟨?_, ?_, ?_, ?_⟩
  · intro hdone hnp
    constructor <;> simp [hdone, hnp]
  · intro hst hnd
    simp [hst, hnd]
  · intro hst hdone
    constructor <;> simp [hst, hdone]
  · intro hdone hst
    refine ⟨?_, ?_, ?_⟩ <;> simp [hdone, hst]

/-- C4 counterexample: the claim fails on the code in both halves.  A
`done` stage with `start_time = 1`, `end_time = 2` updated to `in_progress`
at time 3 gets `start_time = 3`, `end_time = none` (times of a done stage
changed); and the sequence done-at-5, waiting-at-6, done-at-7 on a fresh
stage stamps `end_time` twice (5, then 7). -/
theorem c4_done_stage_time_framing_counterexample :
    ((update_analysis_status 3 "raw_schema" "in_progress"
        (setStage DEFAULT_AGENTS_STATUS "raw_schema" ⟨"done", 1, some 1, some 2⟩))
      "raw_schema" = some ⟨"in_progress", 2, some 3, none⟩) ∧
    ((update_analysis_status 5 "raw_schema" "done" DEFAULT_AGENTS_STATUS)
      "raw_schema" = some ⟨"done", 0, none, some 5⟩) ∧
    ((update_analysis_status 7 "raw_schema" "done"
        (update_analysis_status 6 "raw_schema" "waiting"
          (update_analysis_status 5 "raw_schema" "done" DEFAULT_AGENTS_STATUS)))
      "raw_schema" = some ⟨"done", 0, none, some 7⟩) := by
  refine ⟨?_, ?_, ?_⟩ <;> decide

/-- Witness for `c4_done_stage_time_framing`: a `done` stage updated to
`waiting` keeps its times, and a first transition into `done` stamps
`end_time` with the current time. -/
theorem c4_done_stage_time_framing_witness :
    ((⟨"waiting", 1, some 1, some 2⟩ : StageRecord).start_time =
        (⟨"done", 1, some 1, some 2⟩ : StageRecord).start_time ∧
      (⟨"waiting", 1, some 1, some 2⟩ : StageRecord).end_time =
        (⟨"done", 1, some 1, some 2⟩ : StageRecord).end_time) ∧
    (⟨"done", 0, none, some 5⟩ : StageRecord).end_time = some 5 :=
  ⟨(c4_done_stage_time_framing 9 "raw_schema" "waiting"
      (setStage DEFAULT_AGENTS_STATUS "raw_schema" ⟨"done", 1, some 1, some 2⟩)
      ⟨"done", 1, some 1, some 2⟩ ⟨"waiting", 1, some 1, some 2⟩
      (by decide) (by decide)).1 rfl (by decide),
    (c4_done_stage_time_framing 5 "raw_schema" "done" DEFAULT_AGENTS_STATUS
      defaultStageRecord ⟨"done", 0, none, some 5⟩
      (by decide) (by decide)).2.1 rfl (by decide)⟩

theorem cascadeStep_apply_ne (t : Nat) (data : StatusMap) (a s : String)
    (h : s ≠ a) : cascadeStep t data a s = data s := by
  cases hda : data a with
  | none => simp [cascadeStep, hda]
  | some r =>
    by_cases hr : r.state = "done" <;>
      simp [cascadeStep, hda, hr, setStage, h]

/-- The record the cascade writes for a not-yet-done stage. -/
theorem cascadeStep_apply_self (t : Nat) (data : StatusMap) (a : String) :
    cascadeStep t data a a =
      match data a with
      | none => none
      | some r =>
        if r.state = "done" then some r
        else some ⟨"error", r.attempts, r.start_time,
          if r.start_time.isSome then some t else none⟩ := by
  cases hda : data a with
  | none => simp [cascadeStep, hda]
  | some r =>
    by_cases hr : r.state = "done" <;>
      simp [cascadeStep, hda, hr, setStage]

theorem foldl_cascadeStep_not_mem (t : Nat) (stages : List String)
    (data : StatusMap) (s : String) (h : s ∉ stages) :
    stages.foldl (cascadeStep t) data s = data s := by
  induction stages generalizing data with
  | nil => rfl
  | cons a l ih =>
    rw [List.foldl_cons,
      ih (cascadeStep t data a) (fun hl => h (List.mem_cons_of_mem a hl)),
      cascadeStep_apply_ne t data a s (fun e => h (e ▸ List.mem_cons_self a l))]

theorem foldl_cascadeStep_mem (t : Nat) (stages : List String)
    (data : StatusMap) (s : String) (hn : stages.Nodup) (hm : s ∈ stages) :
    stages.foldl (cascadeStep t) data s =
      match data s with
      | none => none
      | some r =>
        if r.state = "done" then some r
        else some ⟨"error", r.attempts, r.start_time,
          if r.start_time.isSome then some t else none⟩ := by
  induction stages generalizing data with
  | nil => cases hm
  | cons a l ih =>
    rw [List.foldl_cons]
    rcases List.mem_cons.mp hm with rfl | hml
    · rw [foldl_cascadeStep_not_mem t l _ s (List.nodup_cons.mp hn).1]
      exact cascadeStep_apply_self t data s
    · have hsa : s ≠ a := fun e => (List.nodup_cons.mp hn).1 (e ▸ hml)
      rw [ih (cascadeStep t data a) (List.nodup_cons.mp hn).2 hml,
        cascadeStep_apply_ne t data a s hsa]

theorem pipelineOf_nodup (mono : Bool) : (pipelineOf mono).Nodup := by
  cases mono <;> decide

theorem cascadeTargets_nodup (failed : String) (mono : Bool) :
    (cascadeTargets failed mono).Nodup := by
  unfold cascadeTargets
  cases (pipelineOf mono).indexOf? failed with
  | none => exact pipelineOf_nodup mono
  | some i => exact List.Nodup.sublist (List.drop_sublist _ _) (pipelineOf_nodup mono)

theorem cascadeTargets_subset (failed : String) (mono : Bool) :
    ∀ s, s ∈ cascadeTargets failed mono → s ∈ pipelineOf mono := by
  intro s hs
  unfold cascadeTargets at hs
  cases h : (pipelineOf mono).indexOf? failed with
  | none =>
    rw [h] at hs
    exact hs
  | some i =>
    rw [h] at hs
    exact (List.drop_sublist _ _).subset hs

/-- C3: `mark_following_agents_as_error` rewrites to `error` exactly the
stages of `cascadeTargets` — the suffix of the chosen pipeline strictly
after the failed stage's (first) index, or the whole pipeline when the
failed stage is not in it — whose current state is not `done`, stamping
`end_time` with the current time exactly when a `start_time` is present and
leaving it null otherwise, and keeping `attempts` and `start_time`.  Stages
at or before the failed stage, stages outside the pipeline, `done` stages
and absent stages are unchanged. -/
theorem c3_cascade_exactly_following (t : Nat) (failed : String)
    (mono : Bool) (data : StatusMap) (s : String) (r : StageRecord) (i : Nat) :
    ((pipelineOf mono).indexOf? failed = some i →
      s ∈ (pipelineOf mono).take (i + 1) →
      mark_following_agents_as_error t failed mono data s = data s) ∧
    (s ∉ pipelineOf mono →
      mark_following_agents_as_error t failed mono data s = data s) ∧
    (s ∈ cascadeTargets failed mono → data s = some r → r.state = "done" →
      mark_following_agents_as_error t failed mono data s = some r) ∧
    (s ∈ cascadeTargets failed mono → data s = some r → r.state ≠ "done" →
      mark_following_agents_as_error t failed mono data s =
        some ⟨"error", r.attempts, r.start_time,
          if r.start_time.isSome then some t else none⟩) ∧
    (data s = none → mark_following_agents_as_error t failed mono data s = none) ∧
    ((pipelineOf mono).indexOf? failed = some i →
      cascadeTargets failed mono = (pipelineOf mono).drop (i + 1)) ∧
    ((pipelineOf mono).indexOf? failed = none →
      cascadeTargets failed mono = pipelineOf mono) := by
  refine ⟨?_, ?_, ?_, ?_, ?_, ?_, ?_⟩
  · intro hi hmem
    unfold mark_following_agents_as_error
    have hnd : s ∉ cascadeTargets failed mono := by
      unfold cascadeTargets
      rw [hi]
      intro hdrop
      exact List.disjoint_take_drop (pipelineOf_nodup mono) (le_refl (i + 1))
        hmem hdrop
    exact foldl_cascadeStep_not_mem t _ data s hnd
  · intro hnp
    unfold mark_following_agents_as_error
    exact foldl_cascadeStep_not_mem t _ data s
      (fun hmem => hnp (cascadeTargets_subset failed mono s hmem))
  · intro hmem hda hdone
    unfold mark_following_agents_as_error
    rw [foldl_cascadeStep_mem t _ data s (cascadeTargets_nodup failed mono) hmem,
      hda]
    simp [hdone]
  · intro hmem hda hdone
    unfold mark_following_agents_as_error
    rw [foldl_cascadeStep_mem t _ data s (cascadeTargets_nodup failed mono) hmem,
      hda]
    simp [hdone]
  · intro hda
    by_cases hmem : s ∈ cascadeTargets failed mono
    · unfold mark_following_agents_as_error
      rw [foldl_cascadeStep_mem t _ data s (cascadeTargets_nodup failed mono)
        hmem, hda]
    · unfold mark_following_agents_as_error
      rw [foldl_cascadeStep_not_mem t _ data s hmem, hda]
  · intro hi
    unfold cascadeTargets
    rw [hi]
  · intro hi
    unfold cascadeTargets
    rw [hi]

/-- Witness for `c3_cascade_exactly_following`: with `query_builder` failed
in the full pipeline (index 3), `business_analyst` (at or before) is
unchanged, a `done` `query_analysis` stays `done`, a waiting
`confidentiality_tester` becomes `error` with a null `end_time`, and the
targets are exactly the three stages after `query_builder`. -/
theorem c3_cascade_exactly_following_witness :
    (mark_following_agents_as_error 11 "query_builder" false
        DEFAULT_AGENTS_STATUS "business_analyst" =
      DEFAULT_AGENTS_STATUS "business_analyst") ∧
    (mark_following_agents_as_error 11 "query_builder" false
        (setStage DEFAULT_AGENTS_STATUS "query_analysis"
          ⟨"done", 2, some 3, some 4⟩) "query_analysis" =
      some ⟨"done", 2, some 3, some 4⟩) ∧
    (mark_following_agents_as_error 11 "query_builder" false
        DEFAULT_AGENTS_STATUS "confidentiality_tester" =
      some ⟨"error", 0, none, none⟩) ∧
    (cascadeTargets "query_builder" false =
      ["query_analysis", "visualization_designer", "confidentiality_tester"]) :=
  ⟨(c3_cascade_exactly_following 11 "query_builder" false DEFAULT_AGENTS_STATUS
      "business_analyst" defaultStageRecord 3).1 (by decide) (by decide),
    (c3_cascade_exactly_following 11 "query_builder" false _ "query_analysis"
      ⟨"done", 2, some 3, some 4⟩ 3).2.2.1 (by decide) (by decide) rfl,
    by
      have h := (c3_cascade_exactly_following 11 "query_builder" false
        DEFAULT_AGENTS_STATUS "confidentiality_tester" defaultStageRecord
        3).2.2.2.1 (by decide) (by decide) (by decide)
      simpa using h,
    by
      have h := (c3_cascade_exactly_following 11 "query_builder" false
        DEFAULT_AGENTS_STATUS "confidentiality_tester" defaultStageRecord
        3).2.2.2.2.2.1 (by decide)
      rw [h]
      decide⟩

/-- C2: on a JSON parse failure, the queries guardrail returns
`(False, format_json_error e)` in both branches; when the recorded attempts
of `query_builder` are strictly below `MAX_ATTEMPTS` it increments the
attempts counter by one and leaves the rest of the stage record — in
particular its state — unchanged; when the recorded attempts are already at
or above `MAX_ATTEMPTS` it sets the stage state to `error` keeping the
attempts counter, and cascades the failure over every following
not-yet-done stage of the full pipeline. -/
theorem c2_json_parse_failure_retry_decision (t : Nat) (e : JsonDecodeError)
    (data : StatusMap) :
    ((queries_guardrail_json_failure t e data).1 = (false, format_json_error e)) ∧
    (get_agent_attempts data "query_builder" < MAX_ATTEMPTS →
      get_agent_attempts (queries_guardrail_json_failure t e data).2
          "query_builder" = get_agent_attempts data "query_builder" + 1 ∧
      (∀ r, data "query_builder" = some r →
        (queries_guardrail_json_failure t e data).2 "query_builder" =
          some { r with attempts := r.attempts + 1 })) ∧
    (MAX_ATTEMPTS ≤ get_agent_attempts data "query_builder" →
      (∃ r2, (queries_guardrail_json_failure t e data).2 "query_builder" =
          some r2 ∧ r2.state = "error" ∧
          r2.attempts = get_agent_attempts data "query_builder") ∧
      (queries_guardrail_json_failure t e data).2 =
        mark_following_agents_as_error t "query_builder" false
          (update_analysis_status t "query_builder" "error" data) ∧
      (∀ s r, s ∈ cascadeTargets "query_builder" false → data s = some r →
        r.state ≠ "done" →
        (queries_guardrail_json_failure t e data).2 s =
          some ⟨"error", r.attempts, r.start_time,
            if r.start_time.isSome then some t else none⟩)) := by
  by_cases hge : MAX_ATTEMPTS ≤ get_agent_attempts data "query_builder"
  · have hfn : queries_guardrail_json_failure t e data =
        ((false, format_json_error e),
          mark_following_agents_as_error t "query_builder" false
            (update_analysis_status t "query_builder" "error" data)) := by
      unfold queries_guardrail_json_failure
      rw [if_pos hge]
    have hfn2 : (queries_guardrail_json_failure t e data).2 =
        mark_following_agents_as_error t "query_builder" false
          (update_analysis_status t "query_builder" "error" data) := by
      rw [hfn]
    refine ⟨by rw [hfn], fun hlt => absurd hge (not_le.mpr hlt),
      fun _ => ⟨?_, hfn2, ?_⟩⟩
    · rw [hfn2]
      have hnm : ("query_builder" : String) ∉
          cascadeTargets "query_builder" false := by decide
      unfold mark_following_agents_as_error
      rw [foldl_cascadeStep_not_mem t _ _ _ hnm]
      cases hda : data "query_builder" with
      | none =>
        refine ⟨⟨"error", 0, none, none⟩, ?_, rfl, ?_⟩
        · simp [update_analysis_status, setStage, hda, defaultStageRecord]
        · simp [get_agent_attempts, hda]
      | some r =>
        refine ⟨⟨"error", r.attempts, r.start_time, r.end_time⟩, ?_, rfl, ?_⟩
        · simp [update_analysis_status, setStage, hda]
        · simp [get_agent_attempts, hda]
    · intro s r hmem hda hnd
      rw [hfn2]
      have hsq : s ≠ "query_builder" := fun h =>
        (by decide : ("query_builder" : String) ∉
          cascadeTargets "query_builder" false) (h ▸ hmem)
      unfold mark_following_agents_as_error
      rw [foldl_cascadeStep_mem t _ _ s (cascadeTargets_nodup _ _) hmem,
        update_analysis_status_apply_ne t _ _ data s hsq, hda]
      simp [hnd]
  · have hlt := not_le.mp hge
    have hfn : queries_guardrail_json_failure t e data =
        ((false, format_json_error e),
          increment_agent_attempts "query_builder" data) := by
      unfold queries_guardrail_json_failure
      rw [if_neg hge]
    have hfn2 : (queries_guardrail_json_failure t e data).2 =
        increment_agent_attempts "query_builder" data := by
      rw [hfn]
    refine ⟨by rw [hfn], fun _ => ⟨?_, ?_⟩, fun hge2 => absurd hge2 hge⟩
    · rw [hfn2]
      cases hda : data "query_builder" with
      | none =>
        rw [increment_eq_of_none _ _ hda, get_setStage_self]
        simp [get_agent_attempts, hda]
      | some r =>
        have hr : r.attempts < MAX_ATTEMPTS := by
          simpa [get_agent_attempts, hda] using hlt
        rw [increment_eq_of_lt _ _ r hda hr, get_setStage_self]
        simp [get_agent_attempts, hda]
    · intro r hda
      rw [hfn2]
      have hr : r.attempts < MAX_ATTEMPTS := by
        simpa [get_agent_attempts, hda] using hlt
      rw [increment_eq_of_lt _ _ r hda hr]
      exact setStage_apply_self _ _ _

/-- Witness for `c2_json_parse_failure_retry_decision`: a parse failure at
attempts 3 drives the counter to 4 without touching the state, and a parse
failure at attempts 4 produces an `error` record with attempts still 4. -/
theorem c2_json_parse_failure_retry_decision_witness :
    (get_agent_attempts
        (queries_guardrail_json_failure 13 ⟨"Expecting value", 1, 2⟩
          (setStage DEFAULT_AGENTS_STATUS "query_builder"
            ⟨"in_progress", 3, some 0, none⟩)).2 "query_builder" =
      get_agent_attempts
        (setStage DEFAULT_AGENTS_STATUS "query_builder"
          ⟨"in_progress", 3, some 0, none⟩) "query_builder" + 1) ∧
    (∃ r2, (queries_guardrail_json_failure 13 ⟨"Expecting value", 1, 2⟩
          (setStage DEFAULT_AGENTS_STATUS "query_builder"
            ⟨"in_progress", 4, some 0, none⟩)).2 "query_builder" = some r2 ∧
      r2.state = "error" ∧
      r2.attempts = get_agent_attempts
        (setStage DEFAULT_AGENTS_STATUS "query_builder"
          ⟨"in_progress", 4, some 0, none⟩) "query_builder") :=
  ⟨((c2_json_parse_failure_retry_decision 13 ⟨"Expecting value", 1, 2⟩
      (setStage DEFAULT_AGENTS_STATUS "query_builder"
        ⟨"in_progress", 3, some 0, none⟩)).2.1 (by decide)).1,
    ((c2_json_parse_failure_retry_decision 13 ⟨"Expecting value", 1, 2⟩
      (setStage DEFAULT_AGENTS_STATUS "query_builder"
        ⟨"in_progress", 4, some 0, none⟩)).2.2 (by decide)).1⟩

/-- C5: `validate_python_syntax` turns every outcome of executing a code
block into a structured result — no raised exception leaves the component:
a normal return yields `success = true` with no error, a `KeyError` yields
`success = false` with a message naming the missing field
(`keyErrorMessage` embeds the key between quotes), a `NameError` yields
`success = false` with a message carrying the raised message (which names
the undefined identifier), and any other exception yields `success = false`
with its raw message; the (possibly mutated) namespace is returned in every
case. -/
theorem c5_code_runner_total_classification (behavior : PyBehavior)
    (code : String) (env : Env) :
    (∀ env2, behavior code env = ExecOutcome.ok env2 →
      validate_python_syntax behavior code env = ⟨true, none, env2⟩) ∧
    (∀ env2 args, behavior code env = ExecOutcome.keyError env2 args →
      validate_python_syntax behavior code env =
        ⟨false, some (keyErrorMessage (args.headD "")), env2⟩) ∧
    (∀ env2 msg, behavior code env = ExecOutcome.nameError env2 msg →
      validate_python_syntax behavior code env =
        ⟨false, some (nameErrorMessage msg), env2⟩) ∧
    (∀ env2 msg, behavior code env = ExecOutcome.otherError env2 msg →
      validate_python_syntax behavior code env = ⟨false, some msg, env2⟩) := by
  refine ⟨?_, ?_, ?_, ?_⟩ <;> intro env2 <;>
    first
      | (intro h
         unfold validate_python_syntax
         rw [h])
      | (intro msg h
         unfold validate_python_syntax
         rw [h])

/-- Witness for `c5_code_runner_total_classification`: the claim's two
concrete examples.  Executing `result = table[table["missing_col"]]` (a
pandas `KeyError` with argument `missing_col`) yields `success = false`
with an error message containing `missing_col`; executing
`x = undefined_name` (a `NameError` whose message is
`name 'undefined_name' is not defined`) yields `success = false` with an
error message containing `undefined_name`. -/
theorem c5_code_runner_total_classification_witness :
    (( validate_python_syntax
        (fun _ env => ExecOutcome.keyError env ["missing_col"])
        "result = table[table[\"missing_col\"]]" emptyPyEnv).success = false ∧
      ( validate_python_syntax
        (fun _ env => ExecOutcome.keyError env ["missing_col"])
        "result = table[table[\"missing_col\"]]" emptyPyEnv).error =
          some (keyErrorMessage "missing_col") ∧
      strContainsSub (keyErrorMessage "missing_col") "missing_col" = true) ∧
    (( validate_python_syntax
        (fun _ env => ExecOutcome.nameError env nameErrorExampleMsg)
        "x = undefined_name" emptyPyEnv).success = false ∧
      ( validate_python_syntax
        (fun _ env => ExecOutcome.nameError env nameErrorExampleMsg)
        "x = undefined_name" emptyPyEnv).error =
          some (nameErrorMessage nameErrorExampleMsg) ∧
      strContainsSub (nameErrorMessage nameErrorExampleMsg) "undefined_name" =
        true) := by
  refine ⟨⟨?_, ?_, ?_⟩, ⟨?_, ?_, ?_⟩⟩
  · rw [(c5_code_runner_total_classification
      (fun _ env => ExecOutcome.keyError env ["missing_col"])
      "result = table[table[\"missing_col\"]]" emptyPyEnv).2.1 emptyPyEnv
      ["missing_col"] rfl]
  · rw [(c5_code_runner_total_classification
      (fun _ env => ExecOutcome.keyError env ["missing_col"])
      "result = table[table[\"missing_col\"]]" emptyPyEnv).2.1 emptyPyEnv
      ["missing_col"] rfl]
    rfl
  · decide
  · rw [(c5_code_runner_total_classification
      (fun _ env => ExecOutcome.nameError env nameErrorExampleMsg)
      "x = undefined_name" emptyPyEnv).2.2.1 emptyPyEnv nameErrorExampleMsg rfl]
  · rw [(c5_code_runner_total_classification
      (fun _ env => ExecOutcome.nameError env nameErrorExampleMsg)
      "x = undefined_name" emptyPyEnv).2.2.1 emptyPyEnv nameErrorExampleMsg rfl]
  · decide

/-- C6, against the code: in `queries_guardrail`, a sub-item whose query
code runs but leaves `result` bound to something that is not a DataFrame is
counted in `total_queries` and `failed_queries` and produces a
`not_dataframe` failure record, yet its per-item entry is dropped from the
serialized snapshot (`sub_analyses` stays empty) — the branch `continue`s
without the `append` every sibling branch performs.  The mono-agent
guardrail appends the entry for the identical input. -/
theorem c6_not_dataframe_entry_dropped :
    (queries_guardrail_execute (fun _ env => ExecOutcome.ok env) emptyPyEnv
        [⟨"a1", "Analysis", "ctx", [], [⟨"q1", "Count", "why", [], [],
          "table", ["result = 5"], [], "", ""⟩]⟩]).1.summary = ⟨1, 0, 1⟩ ∧
    ((queries_guardrail_execute (fun _ env => ExecOutcome.ok env) emptyPyEnv
        [⟨"a1", "Analysis", "ctx", [], [⟨"q1", "Count", "why", [], [],
          "table", ["result = 5"], [], "", ""⟩]⟩]).1.analyses.map
      (fun a => a.sub_analyses.length)) = [0] ∧
    ((queries_guardrail_execute (fun _ env => ExecOutcome.ok env) emptyPyEnv
        [⟨"a1", "Analysis", "ctx", [], [⟨"q1", "Count", "why", [], [],
          "table", ["result = 5"], [], "", ""⟩]⟩]).2.1.map
      FailureRecord.error_type) = ["not_dataframe"] ∧
    ((mono_agent_guardrail_execute (fun _ env => ExecOutcome.ok env)
        (fun _ => none) emptyPyEnv
        [⟨"a1", "Analysis", "ctx", [], [⟨"q1", "Count", "why", [], [],
          "table", ["result = 5"], [], "", ""⟩]⟩]).1.analyses.map
      (fun a => a.sub_analyses.length)) = [1] := by
  refine ⟨?_, ?_, ?_, ?_⟩ <;> rfl

/-- C9: `_load_analysis_status` falls back to a fresh copy of the 7-stage
`DEFAULT_AGENTS_STATUS` (all stages waiting, attempts 0, null timestamps)
both when the status file is missing and when it cannot be parsed, and
every store operation then proceeds on that map and saves it, overwriting
the corrupt file; the fallback is the 7-stage map unconditionally — the
loader takes no pipeline-variant parameter — even though the mono default
map has no `schema_interpreter` entry. -/
theorem c9_corrupt_status_fallback :
    (load_analysis_status StatusFile.missing = DEFAULT_AGENTS_STATUS) ∧
    (load_analysis_status StatusFile.corrupt = DEFAULT_AGENTS_STATUS) ∧
    (∀ s, s ∈ FULL_PIPELINE → DEFAULT_AGENTS_STATUS s = some defaultStageRecord) ∧
    (FULL_PIPELINE.length = 7) ∧
    (∀ t a st, update_analysis_status_op t a st StatusFile.corrupt =
      StatusFile.good (update_analysis_status t a st DEFAULT_AGENTS_STATUS)) ∧
    (∀ a, increment_agent_attempts_op a StatusFile.corrupt =
      StatusFile.good (increment_agent_attempts a DEFAULT_AGENTS_STATUS)) ∧
    (∀ t f m, mark_following_agents_as_error_op t f m StatusFile.corrupt =
      StatusFile.good
        (mark_following_agents_as_error t f m DEFAULT_AGENTS_STATUS)) ∧
    (∀ a, get_agent_attempts_op a StatusFile.corrupt =
      get_agent_attempts DEFAULT_AGENTS_STATUS a) ∧
    (DEFAULT_AGENTS_STATUS "schema_interpreter" = some defaultStageRecord ∧
      MONO_DEFAULT_AGENTS_STATUS "schema_interpreter" = none) := by
  refine ⟨rfl, rfl, ?_, rfl, fun _ _ _ => rfl, fun _ => rfl, fun _ _ _ => rfl,
    fun _ => rfl, by decide, by decide⟩
  intro s hs
  simp [DEFAULT_AGENTS_STATUS, hs]

/-- Witness for `c9_corrupt_status_fallback`: the fallback map holds the
default record for `business_analyst`. -/
theorem c9_corrupt_status_fallback_witness :
    DEFAULT_AGENTS_STATUS "business_analyst" = some defaultStageRecord :=
  c9_corrupt_status_fallback.2.2.1 "business_analyst" (by decide)

/-- C8: on a table with the single numeric column `x` holding
`[1, 2, 3, null]`, `analyze_dataframe` reports `null_count = 1`,
`unique_count = 3`, `min = 1`, `max = 3`, `mean = 2`; and for any column
holding a value whose type cannot be hashed for the uniqueness count
(`nunique` raises `TypeError`), the analyzer still returns, reporting the
unique count as null. -/
theorem c8_result_analyzer_stats (stdFn : List ℚ → Option ℚ) :
    (∃ info,
      (analyze_dataframe stdFn
        ⟨4, [("x", ⟨DType.numeric,
          [some (Cell.num 1), some (Cell.num 2), some (Cell.num 3),
            none]⟩)]⟩).columns = [("x", info)] ∧
      info.null_count = 1 ∧
      info.unique_count = some 3 ∧
      ∃ ns, info.numeric_stats = some ns ∧
        ns.min = some 1 ∧ ns.max = some 3 ∧ ns.mean = some 2) ∧
    (∀ s2 : Series, s2.cells.any isUnhashableCell = true →
      (analyzeSeries stdFn s2).unique_count = none) := by
  constructor
  · refine ⟨analyzeSeries stdFn ⟨DType.numeric,
      [some (Cell.num 1), some (Cell.num 2), some (Cell.num 3), none]⟩,
      rfl, by rfl, by rfl, ?_⟩
    refine ⟨⟨seriesMin (numericValues [some (Cell.num 1), some (Cell.num 2),
        some (Cell.num 3), none]),
      seriesMax (numericValues [some (Cell.num 1), some (Cell.num 2),
        some (Cell.num 3), none]),
      seriesMean (numericValues [some (Cell.num 1), some (Cell.num 2),
        some (Cell.num 3), none]),
      stdFn (numericValues [some (Cell.num 1), some (Cell.num 2),
        some (Cell.num 3), none])⟩, rfl, ?_, ?_, ?_⟩
    · show seriesMin [(1 : ℚ), 2, 3] = some 1
      simp [seriesMin]
    · show seriesMax [(1 : ℚ), 2, 3] = some 3
      simp [seriesMax]
      norm_num
    · show seriesMean [(1 : ℚ), 2, 3] = some 2
      simp [seriesMean]
      norm_num
  · intro s2 h
    simp [analyzeSeries, nuniqueDrop, h]

/-- Witness for `c8_result_analyzer_stats`: a column holding a single
unhashable value gets a null unique count. -/
theorem c8_result_analyzer_stats_witness :
    (analyzeSeries (fun _ => none)
      ⟨DType.objectType, [some (Cell.unhashable 0)]⟩).unique_count = none :=
  (c8_result_analyzer_stats (fun _ => none)).2
    ⟨DType.objectType, [some (Cell.unhashable 0)]⟩ (by decide)

theorem processMonoSub_totals (b : PyBehavior) (sf : SaveBehavior)
    (aid : String) (st : MonoExecState) (sub : SubAnalysis) :
    (processMonoSub b sf aid st sub).1.summary.total_queries =
        st.summary.total_queries + 1 ∧
      (processMonoSub b sf aid st sub).1.summary.total_visualizations =
        st.summary.total_visualizations + 1 := by
  unfold processMonoSub
  dsimp only
  repeat' split
  all_goals exact ⟨rfl, rfl⟩

theorem foldl_monoSubStep_totals (b : PyBehavior) (sf : SaveBehavior)
    (aid : String) (subs : List SubAnalysis) :
    ∀ acc : MonoExecState × List MonoSubResult,
      (subs.foldl (monoSubStep b sf aid) acc).1.summary.total_queries =
          acc.1.summary.total_queries + subs.length ∧
        (subs.foldl (monoSubStep b sf aid) acc).1.summary.total_visualizations =
          acc.1.summary.total_visualizations + subs.length := by
  induction subs with
  | nil => intro acc; exact ⟨rfl, rfl⟩
  | cons sub rest ih =>
    intro acc
    rw [List.foldl_cons]
    have hstep := processMonoSub_totals b sf aid acc.1 sub
    have hrest := ih (monoSubStep b sf aid acc sub)
    have h1 : (monoSubStep b sf aid acc sub).1.summary.total_queries =
        acc.1.summary.total_queries + 1 := hstep.1
    have h2 : (monoSubStep b sf aid acc sub).1.summary.total_visualizations =
        acc.1.summary.total_visualizations + 1 := hstep.2
    constructor
    · rw [hrest.1, h1, List.length_cons]
      omega
    · rw [hrest.2, h2, List.length_cons]
      omega

theorem foldl_monoAnalysisStep_totals (b : PyBehavior) (sf : SaveBehavior)
    (analyses : List AnalysisItem) :
    ∀ acc : MonoExecState × List MonoAnalysisResult,
      (analyses.foldl (monoAnalysisStep b sf) acc).1.summary.total_queries =
          acc.1.summary.total_queries +
            (analyses.map (fun a => a.sub_analyses.length)).sum ∧
        (analyses.foldl (monoAnalysisStep b sf) acc).1.summary.total_visualizations
          = acc.1.summary.total_visualizations +
            (analyses.map (fun a => a.sub_analyses.length)).sum := by
  induction analyses with
  | nil => intro acc; exact ⟨rfl, rfl⟩
  | cons a rest ih =>
    intro acc
    rw [List.foldl_cons]
    have hrest := ih (monoAnalysisStep b sf acc a)
    have hstep := foldl_monoSubStep_totals b sf a.id a.sub_analyses (acc.1, [])
    have h1 : (monoAnalysisStep b sf acc a).1.summary.total_queries =
        acc.1.summary.total_queries + a.sub_analyses.length := hstep.1
    have h2 : (monoAnalysisStep b sf acc a).1.summary.total_visualizations =
        acc.1.summary.total_visualizations + a.sub_analyses.length := hstep.2
    constructor
    · rw [hrest.1, h1, List.map_cons, List.sum_cons]
      omega
    · rw [hrest.2, h2, List.map_cons, List.sum_cons]
      omega

theorem processMonoSub_query_failure_counts (b : PyBehavior)
    (sf : SaveBehavior) (aid : String) (st : MonoExecState) (sub : SubAnalysis)
    (h : sub.code_lines = [] ∨
      ( validate_python_syntax b (String.intercalate "\n" sub.code_lines)
        st.env).success = false ∨
      isDataFrameVal (( validate_python_syntax b
        (String.intercalate "\n" sub.code_lines) st.env).exec_globals
        "result") = false) :
    (processMonoSub b sf aid st sub).1.summary.failed_queries =
        st.summary.failed_queries + 1 ∧
      (processMonoSub b sf aid st sub).1.summary.failed_visualizations =
        st.summary.failed_visualizations + 1 ∧
      (processMonoSub b sf aid st sub).1.summary.successful_queries =
        st.summary.successful_queries ∧
      (processMonoSub b sf aid st sub).1.summary.successful_visualizations =
        st.summary.successful_visualizations := by
  by_cases hemp : sub.code_lines.isEmpty
  · simp [processMonoSub, hemp]
  · have hne : ¬ sub.code_lines = [] := by
      simpa [List.isEmpty_iff] using hemp
    rcases h with h1 | h2 | h3
    · exact absurd h1 hne
    · simp [processMonoSub, hemp, h2]
    · cases hs : ( validate_python_syntax b
          (String.intercalate "\n" sub.code_lines) st.env).success with
      | false => simp [processMonoSub, hemp, hs]
      | true =>
        cases hv : ( validate_python_syntax b
            (String.intercalate "\n" sub.code_lines) st.env).exec_globals
            "result" with
        | none => simp [processMonoSub, hemp, hs, hv]
        | some v =>
          cases v with
          | dataframe tag =>
            rw [hv] at h3
            simp [isDataFrameVal] at h3
          | figure tag => simp [processMonoSub, hemp, hs, hv]
          | pyNone => simp [processMonoSub, hemp, hs, hv]
          | other tag => simp [processMonoSub, hemp, hs, hv]

theorem processMonoSub_full_success_counts (b : PyBehavior)
    (sf : SaveBehavior) (aid : String) (st : MonoExecState) (sub : SubAnalysis)
    (tag : Nat)
    (hne : sub.code_lines.isEmpty = false)
    (hq : ( validate_python_syntax b (String.intercalate "\n" sub.code_lines)
      st.env).success = true)
    (hdf : ( validate_python_syntax b (String.intercalate "\n" sub.code_lines)
      st.env).exec_globals "result" = some (PyVal.dataframe tag))
    (hvne : sub.visualization_code.isEmpty = false)
    (hvs : ( validate_python_syntax b
      (String.intercalate "\n" sub.visualization_code)
      (( validate_python_syntax b (String.intercalate "\n" sub.code_lines)
        st.env).exec_globals)).success = true)
    (hrp : isPyNone (( validate_python_syntax b
      (String.intercalate "\n" sub.visualization_code)
      (( validate_python_syntax b (String.intercalate "\n" sub.code_lines)
        st.env).exec_globals)).exec_globals "result_plot") = false)
    (hsave : sf ((( validate_python_syntax b
      (String.intercalate "\n" sub.visualization_code)
      (( validate_python_syntax b (String.intercalate "\n" sub.code_lines)
        st.env).exec_globals)).exec_globals "result_plot").getD PyVal.pyNone)
      = none) :
    (processMonoSub b sf aid st sub).1.summary.successful_queries =
        st.summary.successful_queries + 1 ∧
      (processMonoSub b sf aid st sub).1.summary.successful_visualizations =
        st.summary.successful_visualizations + 1 ∧
      (processMonoSub b sf aid st sub).1.summary.failed_queries =
        st.summary.failed_queries ∧
      (processMonoSub b sf aid st sub).1.summary.failed_visualizations =
        st.summary.failed_visualizations := by
  simp [processMonoSub, hne, hq, hdf, hvne, hvs, hrp, hsave]

/-- C7: the mono-agent guardrail's aggregate counts.  On the concrete
3-sub-item run where the first fails at the query step and the other two
succeed through visualization, the snapshot summary is exactly
`total_queries = 3, successful_queries = 2, failed_queries = 1,
total_visualizations = 3, successful_visualizations = 2,
failed_visualizations = 1`.  In general `total_queries` and
`total_visualizations` both equal the number of sub-items; a sub-item
failing at the query step (missing code, execution failure, or `result`
not a DataFrame) adds one to both `failed_queries` and
`failed_visualizations` and nothing to the success counters; and a
sub-item succeeding through visualization adds one to both
`successful_queries` and `successful_visualizations` and nothing to the
failure counters. -/
theorem c7_mono_aggregate_counts :
    ((mono_agent_guardrail_execute
      (fun code env =>
        if code = "q_ok" then
          ExecOutcome.ok
            (fun s => if s = "result" then some (PyVal.dataframe 1) else env s)
        else if code = "v_ok" then
          ExecOutcome.ok
            (fun s => if s = "result_plot" then some (PyVal.figure 7) else env s)
        else ExecOutcome.nameError env nameErrorExampleMsg)
      (fun _ => none) emptyPyEnv
      [⟨"a1", "T", "c", [],
        [⟨"q1", "t1", "w", [], [], "ty", ["q_bad"], ["v_ok"], "bar", "j"⟩,
          ⟨"q2", "t2", "w", [], [], "ty", ["q_ok"], ["v_ok"], "bar", "j"⟩,
          ⟨"q3", "t3", "w", [], [], "ty", ["q_ok"], ["v_ok"], "bar", "j"⟩]⟩]
      ).1.summary = ⟨3, 2, 1, 3, 2, 1⟩) ∧
    (∀ (b : PyBehavior) (sf : SaveBehavior) (env0 : Env)
        (analyses : List AnalysisItem),
      (mono_agent_guardrail_execute b sf env0 analyses).1.summary.total_queries
          = (analyses.map (fun a => a.sub_analyses.length)).sum ∧
        (mono_agent_guardrail_execute b sf env0
          analyses).1.summary.total_visualizations =
          (analyses.map (fun a => a.sub_analyses.length)).sum) ∧
    (∀ (b : PyBehavior) (sf : SaveBehavior) (aid : String)
        (st : MonoExecState) (sub : SubAnalysis),
      (sub.code_lines = [] ∨
        ( validate_python_syntax b (String.intercalate "\n" sub.code_lines)
          st.env).success = false ∨
        isDataFrameVal (( validate_python_syntax b
          (String.intercalate "\n" sub.code_lines) st.env).exec_globals
          "result") = false) →
      (processMonoSub b sf aid st sub).1.summary.failed_queries =
          st.summary.failed_queries + 1 ∧
        (processMonoSub b sf aid st sub).1.summary.failed_visualizations =
          st.summary.failed_visualizations + 1 ∧
        (processMonoSub b sf aid st sub).1.summary.successful_queries =
          st.summary.successful_queries ∧
        (processMonoSub b sf aid st sub).1.summary.successful_visualizations =
          st.summary.successful_visualizations) ∧
    (∀ (b : PyBehavior) (sf : SaveBehavior) (aid : String)
        (st : MonoExecState) (sub : SubAnalysis) (tag : Nat),
      sub.code_lines.isEmpty = false →
      ( validate_python_syntax b (String.intercalate "\n" sub.code_lines)
        st.env).success = true →
      ( validate_python_syntax b (String.intercalate "\n" sub.code_lines)
        st.env).exec_globals "result" = some (PyVal.dataframe tag) →
      sub.visualization_code.isEmpty = false →
      ( validate_python_syntax b (String.intercalate "\n" sub.visualization_code)
        (( validate_python_syntax b (String.intercalate "\n" sub.code_lines)
          st.env).exec_globals)).success = true →
      isPyNone (( validate_python_syntax b
        (String.intercalate "\n" sub.visualization_code)
        (( validate_python_syntax b (String.intercalate "\n" sub.code_lines)
          st.env).exec_globals)).exec_globals "result_plot") = false →
      sf ((( validate_python_syntax b
        (String.intercalate "\n" sub.visualization_code)
        (( validate_python_syntax b (String.intercalate "\n" sub.code_lines)
          st.env).exec_globals)).exec_globals "result_plot").getD
        PyVal.pyNone) = none →
      (processMonoSub b sf aid st sub).1.summary.successful_queries =
          st.summary.successful_queries + 1 ∧
        (processMonoSub b sf aid st sub).1.summary.successful_visualizations =
          st.summary.successful_visualizations + 1 ∧
        (processMonoSub b sf aid st sub).1.summary.failed_queries =
          st.summary.failed_queries ∧
        (processMonoSub b sf aid st sub).1.summary.failed_visualizations =
          st.summary.failed_visualizations) := by
  refine ⟨by rfl, ?_, processMonoSub_query_failure_counts,
    processMonoSub_full_success_counts⟩
  intro b sf env0 analyses
  have h := foldl_monoAnalysisStep_totals b sf analyses
    (⟨env0, ⟨0, 0, 0, 0, 0, 0⟩, []⟩, [])
  have h1 := h.1
  have h2 := h.2
  dsimp only at h1 h2
  rw [Nat.zero_add] at h1 h2
  exact ⟨h1, h2⟩

/-- Witness for `c7_mono_aggregate_counts`: a sub-item with empty
`code_lines` adds one to both failure counters and nothing to the success
counters, starting from the zero summary. -/
theorem c7_mono_aggregate_counts_witness :
    (processMonoSub (fun _ env => ExecOutcome.ok env) (fun _ => none) "a1"
        ⟨emptyPyEnv, ⟨0, 0, 0, 0, 0, 0⟩, []⟩
        ⟨"q1", "t1", "w", [], [], "ty", [], [], "bar", "j"⟩
      ).1.summary.failed_queries =
        (⟨emptyPyEnv, ⟨0, 0, 0, 0, 0, 0⟩,
          ([] : List FailureRecord)⟩ : MonoExecState).summary.failed_queries
          + 1 ∧
      (processMonoSub (fun _ env => ExecOutcome.ok env) (fun _ => none) "a1"
        ⟨emptyPyEnv, ⟨0, 0, 0, 0, 0, 0⟩, []⟩
        ⟨"q1", "t1", "w", [], [], "ty", [], [], "bar", "j"⟩
      ).1.summary.failed_visualizations =
        (⟨emptyPyEnv, ⟨0, 0, 0, 0, 0, 0⟩,
          ([] : List FailureRecord)⟩ : MonoExecState).summary.failed_visualizations
          + 1 ∧
      (processMonoSub (fun _ env => ExecOutcome.ok env) (fun _ => none) "a1"
        ⟨emptyPyEnv, ⟨0, 0, 0, 0, 0, 0⟩, []⟩
        ⟨"q1", "t1", "w", [], [], "ty", [], [], "bar", "j"⟩
      ).1.summary.successful_queries =
        (⟨emptyPyEnv, ⟨0, 0, 0, 0, 0, 0⟩,
          ([] : List FailureRecord)⟩ : MonoExecState).summary.successful_queries ∧
      (processMonoSub (fun _ env => ExecOutcome.ok env) (fun _ => none) "a1"
        ⟨emptyPyEnv, ⟨0, 0, 0, 0, 0, 0⟩, []⟩
        ⟨"q1", "t1", "w", [], [], "ty", [], [], "bar", "j"⟩
      ).1.summary.successful_visualizations =
        (⟨emptyPyEnv, ⟨0, 0, 0, 0, 0, 0⟩,
          ([] : List FailureRecord)⟩ : MonoExecState).summary.successful_visualizations :=
  c7_mono_aggregate_counts.2.2.1 (fun _ env => ExecOutcome.ok env)
    (fun _ => none) "a1" ⟨emptyPyEnv, ⟨0, 0, 0, 0, 0, 0⟩, []⟩
    ⟨"q1", "t1", "w", [], [], "ty", [], [], "bar", "j"⟩ (Or.inl rfl)

theorem string_eq_of_data_eq (s t : String) (h : s.data = t.data) : s = t := by
  cases s
  cases t
  exact congrArg String.mk h

theorem str_lt_append_s (S : String) : S < S ++ "s" := by
  rw [String.lt_iff_toList_lt]
  show S.data < (S ++ "s").data
  rw [String.data_append]
  show S.data < S.data ++ [Char.ofNat 115]
  induction S.data with
  | nil => exact List.Lex.nil
  | cons a as ih => exact List.Lex.cons ih

theorem writesKey_iff (stem S : String) (hS : S.data ≠ []) :
    writesKey stem S = true ↔ (stem = S ∨ stem = S ++ "s") := by
  unfold writesKey
  rw [decide_eq_true_iff]
  constructor
  · rintro (h | ⟨hlast, _, hdrop⟩)
    · exact Or.inl h
    · refine Or.inr ?_
      have hne : stem.data ≠ [] := by
        intro h0
        rw [h0] at hlast
        exact Option.noConfusion hlast
      have hsplit : stem.data.dropLast ++ [stem.data.getLast hne] = stem.data :=
        List.dropLast_append_getLast hne
      have hgl : stem.data.getLast? = some (stem.data.getLast hne) := by
        conv_lhs => rw [← hsplit]
        exact List.getLast?_concat _
      rw [hgl] at hlast
      have hch : stem.data.getLast hne = 's' := Option.some.inj hlast
      have hdata : stem.data.dropLast = S.data := congrArg String.data hdrop
      apply string_eq_of_data_eq
      rw [String.data_append, ← hsplit, hch, hdata]
  · rintro (h | h)
    · exact Or.inl h
    · refine Or.inr ?_
      have hdata : stem.data = S.data ++ [Char.ofNat 115] := by
        rw [h, String.data_append]
      refine ⟨?_, ?_, ?_⟩
      · rw [hdata]
        exact List.getLast?_concat _
      · rw [hdata, List.length_append]
        have h0 := List.length_pos.mpr hS
        simp only [List.length_cons, List.length_nil]
        omega
      · rw [hdata, List.dropLast_concat]

theorem bindCsv_apply_pos (env : String → Option EnvEntry) (stem k : String)
    (hw : writesKey stem k = true) :
    bindCsv env stem k = some (EnvEntry.df stem) := by
  rcases decide_eq_true_iff.mp hw with h | ⟨h1, h2, h3⟩
  · unfold bindCsv
    by_cases hc : stem.data.getLast? = some 's' ∧ 1 < stem.data.length
    · simp only [if_pos hc]
      by_cases ha : k = (⟨stem.data.dropLast⟩ : String)
      · simp [ha]
      · simp [ha, h.symm]
    · simp only [if_neg hc]
      simp [h.symm]
  · unfold bindCsv
    simp only [if_pos (And.intro h1 h2)]
    simp [h3.symm]

theorem bindCsv_apply_neg (env : String → Option EnvEntry) (stem k : String)
    (hw : writesKey stem k = false) :
    bindCsv env stem k = env k := by
  have hnot := hw
  unfold writesKey at hnot
  have hp : ¬ (stem = k ∨
      (stem.data.getLast? = some 's' ∧ 1 < stem.data.length ∧
        (⟨stem.data.dropLast⟩ : String) = k)) := by
    intro hp
    rw [decide_eq_true hp] at hnot
    exact Bool.noConfusion hnot
  push_neg at hp
  obtain ⟨hp1, hp2⟩ := hp
  unfold bindCsv
  by_cases hc : stem.data.getLast? = some 's' ∧ 1 < stem.data.length
  · simp only [if_pos hc]
    have hka : k ≠ (⟨stem.data.dropLast⟩ : String) := by
      intro he
      exact (hp2 hc.1 hc.2) he.symm
    have hks : k ≠ stem := fun he => hp1 he.symm
    simp [hka, hks]
  · simp only [if_neg hc]
    have hks : k ≠ stem := fun he => hp1 he.symm
    simp [hks]

theorem foldl_bindCsv_key (stems : List String)
    (env0 : String → Option EnvEntry) (k : String) :
    stems.foldl bindCsv env0 k =
      match (stems.filter (fun st => writesKey st k)).getLast? with
      | some w => some (EnvEntry.df w)
      | none => env0 k := by
  induction stems generalizing env0 with
  | nil => rfl
  | cons a l ih =>
    rw [List.foldl_cons, ih (bindCsv env0 a)]
    by_cases hw : writesKey a k = true
    · rw [@List.filter_cons_of_pos String (fun st => writesKey st k) a l hw]
      cases hfl : l.filter (fun st => writesKey st k) with
      | nil => simp [bindCsv_apply_pos env0 a k hw]
      | cons x xs =>
        rw [List.getLast?_cons_cons]
        cases hgl : (x :: xs).getLast? with
        | some w => rfl
        | none => simp at hgl
    · have hw2 : writesKey a k = false := by
        cases h : writesKey a k
        · rfl
        · exact absurd h hw
      rw [@List.filter_cons_of_neg String (fun st => writesKey st k) a l
        (by simp [hw2])]
      cases hfl : l.filter (fun st => writesKey st k) with
      | nil => simp [bindCsv_apply_neg env0 a k hw2]
      | cons x xs =>
        cases hgl : (x :: xs).getLast? with
        | some w => rfl
        | none => simp [bindCsv_apply_neg env0 a k hw2]

theorem filter_eq_single_of_sorted (l : List String) (b : String)
    (hs : l.Sorted (· < ·)) (hb : b ∈ l) :
    l.filter (fun x => decide (x = b)) = [b] := by
  induction l with
  | nil => cases hb
  | cons c rest ih =>
    have hlt : ∀ x ∈ rest, c < x := List.rel_of_sorted_cons hs
    by_cases hcb : c = b
    · rw [@List.filter_cons_of_pos String (fun x => decide (x = b)) c rest
        (by simp [hcb])]
      have hrest : rest.filter (fun x => decide (x = b)) = [] := by
        rw [List.filter_eq_nil_iff]
        intro x hx
        simp only [decide_eq_true_iff]
        intro hxb
        have hcx : c < b := hxb ▸ hlt x hx
        rw [hcb] at hcx
        exact absurd hcx (lt_irrefl b)
      rw [hrest, hcb]
    · rcases List.mem_cons.mp hb with h | hbr
      · exact absurd h.symm hcb
      · rw [@List.filter_cons_of_neg String (fun x => decide (x = b)) c rest
          (by simp [hcb])]
        exact ih hs.of_cons hbr

theorem filter_pair_of_sorted (l : List String) (a b : String) (hab : a < b)
    (hs : l.Sorted (· < ·)) (ha : a ∈ l) (hb : b ∈ l) :
    l.filter (fun x => decide (x = a ∨ x = b)) = [a, b] := by
  induction l with
  | nil => cases ha
  | cons c rest ih =>
    have hlt : ∀ x ∈ rest, c < x := List.rel_of_sorted_cons hs
    rcases List.mem_cons.mp ha with h | har
    · have hbc : b ≠ c := fun he => absurd hab (by rw [h, he]; exact lt_irrefl c)
      have hbr : b ∈ rest := by
        rcases List.mem_cons.mp hb with h2 | h2
        · exact absurd h2 hbc
        · exact h2
      rw [@List.filter_cons_of_pos String (fun x => decide (x = a ∨ x = b)) c
        rest (by simp [h.symm])]
      have hcongr : rest.filter (fun x => decide (x = a ∨ x = b)) =
          rest.filter (fun x => decide (x = b)) := by
        apply List.filter_congr
        intro x hx
        have hxa : x ≠ a := by
          intro he
          have := hlt x hx
          rw [he, ← h] at this
          exact absurd this (lt_irrefl a)
        simp [hxa]
      rw [hcongr, filter_eq_single_of_sorted rest b hs.of_cons hbr, h]
    · have hca : c ≠ a := by
        intro he
        have := hlt a har
        rw [he] at this
        exact absurd this (lt_irrefl a)
      have hcb : c ≠ b := by
        intro he
        have := hlt a har
        rw [he] at this
        exact absurd hab (asymm this)
      have hbr : b ∈ rest := by
        rcases List.mem_cons.mp hb with h2 | h2
        · exact absurd h2.symm hcb
        · exact h2
      rw [@List.filter_cons_of_neg String (fun x => decide (x = a ∨ x = b)) c
        rest (by simp [hca, hcb])]
      exact ih hs.of_cons har hbr

/-- C10: when the data directory holds both `S.csv` and `S+"s".csv`, the
execution environment builder — whose loop visits stems in sorted order —
write the plural file's dataframe under the singular alias `S` after the
singular file's own binding, so the namespace entry `S` ends up referring
to the dataframe loaded from `S+"s".csv`, shadowing the table actually
named `S`. -/
theorem c10_singular_alias_shadows (stems : List String) (S : String)
    (hS : S.data ≠ []) (hsorted : stems.Sorted (· < ·))
    (hm1 : S ∈ stems) (hm2 : S ++ "s" ∈ stems) :
    create_execution_env stems S = some (EnvEntry.df (S ++ "s")) := by
  unfold create_execution_env
  rw [foldl_bindCsv_key]
  have hfc : stems.filter (fun st => writesKey st S) =
      stems.filter (fun x => decide (x = S ∨ x = S ++ "s")) := by
    apply List.filter_congr
    intro x _
    by_cases h : x = S ∨ x = S ++ "s"
    · rw [decide_eq_true h, (writesKey_iff x S hS).mpr h]
    · rw [decide_eq_false h]
      have : ¬ writesKey x S = true := fun hw => h ((writesKey_iff x S hS).mp hw)
      exact Bool.not_eq_true _ ▸ this
  rw [hfc, filter_pair_of_sorted stems S (S ++ "s") (str_lt_append_s S)
    hsorted hm1 hm2]
  rfl

/-- Witness for `c10_singular_alias_shadows`: with files `user.csv` and
`users.csv`, the environment key `user` holds the dataframe loaded from
`users.csv`. -/
theorem c10_singular_alias_shadows_witness :
    create_execution_env ["user", "users"] "user" =
      some (EnvEntry.df ("user" ++ "s")) :=
  c10_singular_alias_shadows ["user", "users"] "user" (by decide)
    (List.sorted_cons.mpr ⟨by
      intro b hb
      have : b = "users" := by simpa using hb
      rw [this]
      exact str_lt_append_s "user",
      List.sorted_singleton _⟩)
    (by decide) (by decide)

end DataAnalysis
